import Mathlib

set_option maxHeartbeats 1000000

/-!
Verification development for the SmartID identity-document processing service.

The Python sources are shallowly embedded as Lean definitions:
pure functions become Lean functions, the mutable `PipelineState` threaded
through the two pipeline stages becomes an immutable structure transformed by
each stage, and calls to external collaborators (Google Vision OCR, the OpenAI
chat endpoint, the stdlib JSON parser, the filesystem and the wall clock) are
modelled as explicit environment parameters.  Python `str` values that only
flow through the program are embedded as `String`; strings whose character
structure the code inspects (uploaded filenames, LLM response bodies) are
embedded as `List Char`, and raw file bytes as `List Nat`.  Python floats are
embedded as `Rat`.
-/

namespace SmartID

/-- JSON values, as produced by `json.loads` and stored in the loosely typed
`Dict[str, Any]` fields of the Python code (`extracted_data`, `debug_info`). -/
inductive Json where
  | null : Json
  | bool (b : Bool) : Json
  | num (q : Rat) : Json
  | str (s : String) : Json
  | arr (xs : List Json) : Json
  | obj (fields : List (String × Json)) : Json

/-- Python dict update `d[k] = v` / `{**d, k: v}` on an association-list
embedding of a dict: overwrites the value in place if the key is present,
otherwise appends the new binding (preserving Python dict key order). -/
def dictSet (d : List (String × α)) (k : String) (v : α) : List (String × α) :=
  if d.any (fun p => p.1 = k) then
    d.map (fun p => if p.1 = k then (k, v) else p)
  else
    d ++ [(k, v)]

/-- Keys of an association-list dict, in order. -/
def dictKeys (d : List (String × α)) : List String :=
  d.map Prod.fst

-- === models/state.py ===

/-- The `ProcessingMetrics` from `models/state.py` (field defaults from the
pydantic model). -/
structure ProcessingMetrics where
  tokens_used : Nat := 0
  processing_time : Rat := 0
  cost_estimate : Rat := 0
  llm_model : String := "gpt-4o-mini"

/-- The `DocumentInfo` from `models/state.py`. -/
structure DocumentInfo where
  document_input : List (String × Json) := []
  file_path : String := ""
  filename : String := ""
  file_size : Nat := 0

/-- The `ProcessingData` from `models/state.py`; `ocr_confidence` defaults to 0.0. -/
structure ProcessingData where
  raw_text : Option String := none
  ocr_confidence : Rat := 0

/-- The `ProcessingControl` from `models/state.py`. -/
structure ProcessingControl where
  processing_stage : String := "ingestion"
  status : String := "PROCESSING"

/-- The `LoggingData` from `models/state.py`. -/
structure LoggingData where
  messages : List String := []
  errors : List String := []
  warnings : List String := []
  debug_info : List (String × Json) := []

/-- The `PipelineState` from `models/state.py`: the record threaded through both
pipeline stages. -/
structure PipelineState where
  document_info : DocumentInfo := {}
  processing_data : ProcessingData := {}
  processing_control : ProcessingControl := {}
  metrics : ProcessingMetrics := {}
  logging : LoggingData := {}
  extracted_data : List (String × Json) := []

/-- The `PipelineState.add_message`: appends `"[HH:MM:SS] " + message` to
`logging.messages`.  The wall-clock reading is passed in as `ts`. -/
def PipelineState.add_message (state : PipelineState) (ts : String) (message : String) : PipelineState :=
  { state with logging :=
      { state.logging with messages := state.logging.messages ++ ["[" ++ ts ++ "] " ++ message] } }

/-- The `PipelineState.add_error`: appends a timestamped error to `logging.errors`
and sets `processing_control.status` to FAILED. -/
def PipelineState.add_error (state : PipelineState) (ts : String) (error : String) : PipelineState :=
  let state := { state with logging :=
      { state.logging with errors := state.logging.errors ++ ["[" ++ ts ++ "] " ++ error] } }
  { state with processing_control := { state.processing_control with status := "FAILED" } }

/-- The `PipelineState.add_warning`: appends a timestamped warning. -/
def PipelineState.add_warning (state : PipelineState) (ts : String) (warning : String) : PipelineState :=
  { state with logging :=
      { state.logging with warnings := state.logging.warnings ++ ["[" ++ ts ++ "] " ++ warning] } }

/-- The `PipelineState.update_stage`: sets `processing_control.processing_stage`
and logs an informational message. -/
def PipelineState.update_stage (state : PipelineState) (ts : String) (stage : String) : PipelineState :=
  let state := { state with processing_control :=
      { state.processing_control with processing_stage := stage } }
  state.add_message ts ("Iniciando etapa: " ++ stage)

/-- The `PipelineState.update_metrics` from `models/state.py`: adds the token and
time deltas and increases `cost_estimate` by `(tokens / 1000) * 0.00015` — the
gpt-4o-mini input price hardcoded in the source (the settings pricing table is
not consulted). -/
def PipelineState.update_metrics (state : PipelineState) (tokens : Nat) (time_delta : Rat := 0) : PipelineState :=
  { state with metrics :=
      { state.metrics with
          tokens_used := state.metrics.tokens_used + tokens,
          processing_time := state.metrics.processing_time + time_delta,
          cost_estimate := state.metrics.cost_estimate + ((tokens : Rat) / 1000) * 0.00015 } }

-- === models/settings.py ===

/-- The subset of `Settings` from `models/settings.py` that the embedded code
reads, with the source defaults.  `openai_pricing` maps a model name to its
(input, output) USD price per 1000 tokens. -/
structure Settings where
  llm_model : String := "gpt-4o-mini"
  llm_temperature : Rat := 0.1
  max_image_size_mb : Nat := 10
  openai_pricing : List (String × Rat × Rat) :=
    [("gpt-4o", (0.0025, 0.01)),
     ("gpt-4o-mini", (0.00015, 0.0006)),
     ("gpt-3.5-turbo", (0.001, 0.002))]

/-- The default settings instance (no environment overrides). -/
def defaultSettings : Settings := {}

-- === models/prompts.py ===

/-- The `EXTRACTION_SYSTEM_PROMPT` from `models/prompts.py`. -/
def EXTRACTION_SYSTEM_PROMPT : String :=
  "Eres un experto en analizar texto de licencias de conducir o DNIs"

/-- The part of `EXTRACTION_USER_PROMPT` before the `cleaned_text` format
placeholder. -/
def EXTRACTION_USER_PROMPT_PREFIX : String :=
  "Analiza el siguiente texto de una licencia o dni y extrae los datos solicitados:\n\nINSTRUCCIONES:\n1. Extrae SOLO la información que esté explícitamente presente en el texto\n2. Si un campo no está presente, usa null o lo que se especifique\n3. Mantén formatos originales (no inventes ni normalices a menos que se diga lo contrario)\n4. Responde ÚNICAMENTE en JSON válido, sin explicaciones\n5. Si encuentras múltiples valores para un campo, usa el más específico\n\nCAMPOS A EXTRAER:\n- apellido_paterno: Apellido paterno o primer apellido\n    - Debe estar en mayúsculas y sin abreviaciones\n    - Debe estar en la sección de apellidos y es el primero \n- apellio_materno: Apellido materno o segundo apellido\n    - Debe estar en mayúsculas y sin abreviaciones\n    - Debe estar en la sección de apellidos y es el segundo\n- nombres: Nombres completos\n    - Debe estar en mayúsculas y sin abreviaciones\n    - Debe estar en la sección de nombres y puede incluir múltiples nombres\n- fecha_emision: Fecha de emisión    \n    - Formato: \"DD/MM/AAAA\"\n    - También puede llamarse fecha de expedición o emisión\n- fecha_caducidad: Fecha de caducidad\n    - Formato: \"DD/MM/AAAA\"\n    - También puede llamarse fecha de vencimiento, expiración o revalidación\n- tipo_documento: Tipo de documento\n    - Debe ser uno de: \"DNI\", \"LICENCIA DE CONDUCIR\", \"PASAPORTE\", \"CARNET DE EXTRANJERÍA\"\n    - Si no está claro, usa null\n- numero_documento: Número del documento\n    - Debe ser el número completo, sin espacios ni guiones, en los DNI suele estar después de la palabra PER\n    - Si es DNI tiene 8 digitos\n    - Si no está claro, usa null\n\nTEXTO DEL DOCUMENTO DE IDENTIDAD:\n"

/-- The part of `EXTRACTION_USER_PROMPT` after the `cleaned_text` placeholder. -/
def EXTRACTION_USER_PROMPT_SUFFIX : String :=
  "\n\nResponde en formato JSON:"

/-- The `EXTRACTION_USER_PROMPT.format(cleaned_text=...)`. -/
def extraction_user_prompt (cleaned_text : String) : String :=
  EXTRACTION_USER_PROMPT_PREFIX ++ cleaned_text ++ EXTRACTION_USER_PROMPT_SUFFIX

/-- The fixed recognized field set: the seven target field names spelled out in
the extraction prompt (including the `apellio_materno` spelling used by the
source). -/
def recognizedFields : List String :=
  ["apellido_paterno", "apellio_materno", "nombres", "fecha_emision",
   "fecha_caducidad", "tipo_documento", "numero_documento"]

/-- The `generate_extraction_prompts` from `models/prompts.py`.  Raises (returns
`.error`) when `processing_data.raw_text` is falsy (absent or empty). -/
def generate_extraction_prompts (state : PipelineState) : Except String (String × String) :=
  match state.processing_data.raw_text with
  | none => .error "No hay texto extraído disponible en el estado"
  | some t =>
      if t = "" then .error "No hay texto extraído disponible en el estado"
      else .ok (EXTRACTION_SYSTEM_PROMPT, extraction_user_prompt t)

-- === nodes/llm.py (Stage B) ===

/-- Python `str.strip()` on a character-list string: drops leading and
trailing whitespace.  (Python also strips `\x0b` and `\x0c`, which
`Char.isWhitespace` does not include; no string in this development uses
those characters.) -/
def pyStrip (s : List Char) : List Char :=
  ((s.dropWhile Char.isWhitespace).reverse.dropWhile Char.isWhitespace).reverse

/-- The code-fence cleanup of `nodes/llm.py` lines 42-45: drop a leading
three-backtick-json marker and a trailing three-backtick marker if present. -/
def stripFences (content : List Char) : List Char :=
  let content := if "```json".toList.isPrefixOf content then content.drop 7 else content
  if "```".toList.isSuffixOf content then content.take (content.length - 3) else content

/-- The full response post-processing applied by `llm_node` before
`json.loads`: strip, remove fences, strip again. -/
def cleanLLMContent (raw : List Char) : List Char :=
  pyStrip (stripFences (pyStrip raw))

/-- Python `str.strip()` on a `String`. -/
def pyStripStr (s : String) : String :=
  String.mk (pyStrip s.toList)

/-- The value returned by `client.chat.completions.create` as far as the code
reads it: the message content and the total token usage. -/
structure LLMResponse where
  content : List Char
  tokens_used : Nat

/-- Environment for one Stage B run: the outcome of constructing the OpenAI
client, the outcome of the chat completion call, and the behaviour of the
stdlib JSON parser (`json.loads`; `.error` models a raised exception with the
given text). -/
structure LLMEnv where
  clientInit : Except String Unit
  callResult : Except String LLMResponse
  parse : List Char → Except String Json

/-- The `llm_stats` debug entry written by `llm_node` on success. -/
def llmStats (sett : Settings) (tokens_used : Nat) (fields : List (String × Json))
    (content : List Char) (system_prompt user_prompt : String) : Json :=
  .obj [("model_used", .str sett.llm_model),
        ("tokens_used", .num tokens_used),
        ("temperature", .num sett.llm_temperature),
        ("max_tokens", .num 1500),
        ("top_p", .num (0.9 : Rat)),
        ("fields_extracted", .num fields.length),
        ("response_length", .num content.length),
        ("extraction_successful", .bool true),
        ("prompt_system_length", .num system_prompt.length),
        ("prompt_user_length", .num user_prompt.length)]

/-- The `llm_node` from `nodes/llm.py` (Stage B).  Returns the transformed state
together with the number of LLM chat-completion calls made.  All exceptions
raised inside the stage are converted to `add_error` outcomes exactly as the
source's try/except blocks do; `ts` is the wall-clock reading used for the
timestamps of this invocation. -/
def llm_node (sett : Settings) (env : LLMEnv) (ts : String) (state : PipelineState) :
    PipelineState × Nat :=
  if state.processing_control.status = "FAILED" then
    (state, 0)
  else
    let state := state.update_stage ts "llm_processing"
    match env.clientInit with
    | .error e => (state.add_error ts ("Error inicializando cliente OpenAI: " ++ e), 0)
    | .ok _ =>
      match generate_extraction_prompts state with
      | .error e => (state.add_error ts ("Error en extracción LLM: " ++ e), 0)
      | .ok (system_prompt, user_prompt) =>
        match env.callResult with
        | .error e => (state.add_error ts ("Error en extracción LLM: " ++ e), 1)
        | .ok resp =>
          let tokens_used := resp.tokens_used
          let content := stripFences (pyStrip resp.content)
          match env.parse (pyStrip content) with
          | .error e => (state.add_error ts ("Error en extracción LLM: " ++ e), 1)
          | .ok result =>
            match result with
            | .obj fields =>
              let state := { state with extracted_data := fields }
              let state := state.update_metrics tokens_used
              let state := { state with processing_control :=
                  { state.processing_control with status := "COMPLETED" } }
              let state := { state with logging :=
                  { state.logging with debug_info :=
                      (dictSet state.logging.debug_info "llm_stats"
                        (llmStats sett tokens_used fields content system_prompt user_prompt)) } }
              (state.add_message ts
                ("Extracción completada: " ++ toString fields.length ++ " campos extraídos"), 1)
            | _ =>
              (state.add_error ts
                "Error en extracción LLM: Respuesta de OpenAI no es un objeto JSON válido", 1)

-- === utils/image_utils.py ===

/-- The `SUPPORTED_IMAGE_FORMATS` from `utils/image_utils.py`. -/
def SUPPORTED_IMAGE_FORMATS : List String :=
  [".jpg", ".jpeg", ".png", ".tiff", ".tif", ".bmp"]

/-- Auxiliary accumulator loop for `splitOnChar`. -/
def splitOnCharAux (c : Char) : List Char → List Char → List (List Char)
  | [], acc => [acc.reverse]
  | x :: xs, acc =>
      if x = c then acc.reverse :: splitOnCharAux c xs []
      else splitOnCharAux c xs (x :: acc)

/-- Python `s.split(c)` on character lists. -/
def splitOnChar (c : Char) (s : List Char) : List (List Char) :=
  splitOnCharAux c s []

/-- The `pathlib.Path(...).suffix` as a character list: the final extension (with
dot) of the last path component, empty when the only dot is leading or
trailing. -/
def pathSuffixChars (p : String) : List Char :=
  let name := (splitOnChar '/' p.toList).getLastD []
  let tailAfterDot := name.reverse.takeWhile (fun c => c ≠ '.')
  if tailAfterDot.length = name.length then []
  else
    let i := name.length - 1 - tailAfterDot.length
    if 0 < i ∧ i < name.length - 1 then '.' :: tailAfterDot.reverse else []

/-- The `pathlib.Path(...).suffix` as a `String`. -/
def pathSuffix (p : String) : String :=
  String.mk (pathSuffixChars p)

/-- The `is_image_file` from `utils/image_utils.py` (`Path.suffix.lower()`
membership in the supported set). -/
def is_image_file (file_path : String) : Bool :=
  SUPPORTED_IMAGE_FORMATS.contains (String.mk ((pathSuffixChars file_path).map Char.toLower))

-- === nodes/image_processing.py (Stage A) ===

/-- Environment for one Stage A run: availability answers of the collaborator
checks, filesystem facts about the backing file, the outcome of the single
`extract_text_with_google_vision` call (`.error` models a raised exception),
and the elapsed wall-clock time of the OCR step. -/
structure OCREnv where
  vision : Bool × String
  image_deps : Except String Unit
  file_exists : Bool
  file_size_bytes : Nat
  ocrResult : Except String String
  elapsed : Rat

/-- Python `f"{x:.2f}"` fixed-point rendering (rounding half up; the
half-even difference of Python is immaterial here). -/
def fmtFixed2 (q : Rat) : String :=
  let n : Int := ⌊q * 100 + 1/2⌋
  let fp := (n % 100).natAbs
  toString (n / 100) ++ "." ++ (if fp < 10 then "0" else "") ++ toString fp

/-- Python `f"{x:.1f}"` fixed-point rendering (rounding half up). -/
def fmtFixed1 (q : Rat) : String :=
  let n : Int := ⌊q * 10 + 1/2⌋
  toString (n / 10) ++ "." ++ toString (n % 10).natAbs

/-- The `image_processing_stats` debug entry written by Stage A on success. -/
def imageProcessingStats (file_size_mb elapsed : Rat) (raw_text file_path : String) : Json :=
  .obj [("file_size_mb", .num file_size_mb),
        ("processing_time_seconds", .num elapsed),
        ("characters_extracted", .num raw_text.length),
        ("ocr_engine", .str "google_vision"),
        ("file_extension", .str (String.mk ((pathSuffixChars file_path).map Char.toLower)))]

/-- The `image_processing_node` from `nodes/image_processing.py` (Stage A).
Returns the transformed state together with the number of OCR collaborator
calls made.  Note that, unlike Stage B, this node performs no check of an
already-FAILED incoming status.  The outer catch-all except block of the
source has no reachable raising site beyond the ones modelled and is
therefore not represented. -/
def image_processing_node (sett : Settings) (env : OCREnv) (ts : String)
    (state : PipelineState) : PipelineState × Nat :=
  let state := state.update_stage ts "ImageProcessing"
  if ¬ env.vision.1 then
    (state.add_error ts ("Google Vision API no disponible: " ++ env.vision.2), 0)
  else
    match env.image_deps with
    | .error e => (state.add_error ts ("Dependencias de imagen faltantes: " ++ e), 0)
    | .ok _ =>
      let file_path := state.document_info.file_path
      if ¬ env.file_exists then
        (state.add_error ts ("Archivo no encontrado: " ++ file_path), 0)
      else if ¬ is_image_file file_path then
        (state.add_error ts ("El archivo no es una imagen válida: " ++ pathSuffix file_path), 0)
      else
        let file_size_mb : Rat := (env.file_size_bytes : Rat) / (1024 * 1024)
        if file_size_mb > (sett.max_image_size_mb : Rat) then
          (state.add_error ts ("Imagen demasiado grande: " ++ fmtFixed1 file_size_mb ++ "MB > "
            ++ toString sett.max_image_size_mb ++ "MB"), 0)
        else
          let state := state.add_message ts ("Imagen válida: " ++ fmtFixed2 file_size_mb ++ "MB")
          match env.ocrResult with
          | .error e => (state.add_error ts ("Error en Google Vision API: " ++ e), 1)
          | .ok raw_text =>
            if pyStripStr raw_text = "" then
              (state.add_error ts "No se detectó texto en la imagen", 1)
            else
              let state := { state with processing_data :=
                  { state.processing_data with raw_text := some (pyStripStr raw_text) } }
              let state := state.add_message ts
                ("Texto extraído: " ++ toString raw_text.length ++ " caracteres")
              let state := { state with logging :=
                  { state.logging with debug_info :=
                      (dictSet state.logging.debug_info "image_processing_stats"
                        (imageProcessingStats file_size_mb env.elapsed raw_text file_path)) } }
              (state, 1)

-- === pipeline.py ===

/-- The `Pipeline.create_initial_state`: fresh state with only the document
descriptor filled in; every other field keeps its pydantic default. -/
def create_initial_state (file_path filename : String) : PipelineState :=
  { document_info := { file_path := file_path, filename := filename } }

/-- The `error_details` block of the failure-shaped result of
`Pipeline.process`. -/
structure ErrorDetails where
  errors : List String
  warnings : List String
  last_stage : String

/-- The dictionary returned by `Pipeline.process`: the failure shape carries
`error_details` and no `extracted_data` key, the success shape the reverse.
Keys the code never writes are `none`. -/
structure PipelineResult where
  status : String
  processing_stage : String
  error_details : Option ErrorDetails
  extracted_data : Option (List (String × Json))
  metrics : ProcessingMetrics

/-- The normalization of the final pipeline state into one of the two result
shapes, from the body of `Pipeline.process`. -/
def mkPipelineResult (final : PipelineState) : PipelineResult :=
  if final.processing_control.status = "FAILED" then
    { status := "FAILED",
      processing_stage := final.processing_control.processing_stage,
      error_details := some { errors := final.logging.errors,
                              warnings := final.logging.warnings,
                              last_stage := final.processing_control.processing_stage },
      extracted_data := none,
      metrics := final.metrics }
  else
    { status := final.processing_control.status,
      processing_stage := final.processing_control.processing_stage,
      error_details := none,
      extracted_data := some final.extracted_data,
      metrics := final.metrics }

/-- The `Pipeline.process`: Stage A, then Stage B, then result normalization.
Returns the result together with the OCR and LLM collaborator call counts.
(The catch-all that returns `None` on infrastructure exceptions is modelled
at the job-tracker level by `BackgroundOutcome.ok none`.) -/
def pipelineProcess (sett : Settings) (oenv : OCREnv) (lenv : LLMEnv) (ts1 ts2 : String)
    (file_path filename : String) : PipelineResult × Nat × Nat :=
  let r1 := image_processing_node sett oenv ts1 (create_initial_state file_path filename)
  let r2 := llm_node sett lenv ts2 r1.1
  (mkPipelineResult r2.1, r1.2, r2.2)

-- === utils/api_utils.py ===

/-- Submission validation failures of `utils/api_utils.py` and the upload
endpoint, by raising site. -/
inductive ValError where
  | noFilename
  | badExtension
  | tooLarge
  | badContent
  | saveFailed
deriving DecidableEq

/-- The `image_extensions` from `validate_document`. -/
def image_extensions : List (List Char) :=
  [".jpg".toList, ".jpeg".toList, ".png".toList, ".tiff".toList, ".tif".toList, ".bmp".toList]

/-- The `magic_bytes` table from `_is_valid_image_content`, keyed by the
(dotless) extension. -/
def magic_bytes : List (List Char × List (List Nat)) :=
  [("jpg".toList, [[0xff, 0xd8, 0xff]]),
   ("jpeg".toList, [[0xff, 0xd8, 0xff]]),
   ("png".toList, [[0x89, 0x50, 0x4e, 0x47]]),
   ("tiff".toList, [[0x49, 0x49, 0x2a, 0x00], [0x4d, 0x4d, 0x00, 0x2a]]),
   ("tif".toList, [[0x49, 0x49, 0x2a, 0x00], [0x4d, 0x4d, 0x00, 0x2a]]),
   ("bmp".toList, [[0x42, 0x4d]])]

/-- The `_is_valid_image_content` from `utils/api_utils.py` (leading underscore
dropped for Lean): magic-byte validation of the payload against the
extension taken from the final dot component of the filename. -/
def is_valid_image_content (content : List Nat) (filename : List Char) : Bool :=
  if content = [] then false
  else
    let ext := (if filename.contains '.'
                then (splitOnChar '.' filename).getLastD []
                else []).map Char.toLower
    match magic_bytes.find? (fun p => p.1 == ext) with
    | some (_, sigs) => sigs.any (fun magic => magic.isPrefixOf content)
    | none => false

/-- The `validate_document` from `utils/api_utils.py`: filename, extension, size
and magic-byte checks, in source order. -/
def validate_document (sett : Settings) (filename : List Char) (content : List Nat) :
    Except ValError (List Nat) :=
  if filename = [] then .error .noFilename
  else
    let filename_lower := filename.map Char.toLower
    if ¬ image_extensions.any (fun ext => ext.isSuffixOf filename_lower) then
      .error .badExtension
    else if ((content.length : Rat) / (1024 * 1024)) > (sett.max_image_size_mb : Rat) then
      .error .tooLarge
    else if ¬ is_valid_image_content content filename_lower then
      .error .badContent
    else
      .ok content

-- === main.py: job tracker ===

/-- The `enhanced_result` stored for a COMPLETED job (see
`process_file_background`).  The pipeline success result carries no
`processing_data`, `debug_info` or `time_metrics` keys, so the defensive
`.get` defaults of the source apply: the merged `texto_extraido` text is
always the empty string, and the reported confidence, time and text length
are always zero. -/
structure EnhancedResult where
  extracted_data : List (String × Json)
  ocr_confidence : Rat
  processing_time : Rat
  text_length : Nat
  ocr_method : String
  raw_result : PipelineResult

/-- Python `round(x, 2)` (half-up; the half-even difference is immaterial). -/
def round2 (q : Rat) : Rat :=
  ((⌊q * 100 + 1/2⌋ : Int) : Rat) / 100

/-- Builds the enhanced result dictionary from a (non-FAILED) pipeline
result, as in `process_file_background` lines 104-125. -/
def enhanced_result (r : PipelineResult) : EnhancedResult :=
  { extracted_data := dictSet (r.extracted_data.getD []) "texto_extraido" (Json.str ""),
    ocr_confidence := 0,
    processing_time := 0,
    text_length := 0,
    ocr_method := "Google Vision API",
    raw_result := r }

/-- One entry of the in-memory `job_storage` dict.  Keys that
`process_file_background` may add later are `Option` fields. -/
structure JobRecord where
  job_id : String
  status : String
  filename : String
  file_size_mb : Rat
  created_at : String
  file_path : String
  started_at : Option String := none
  completed_at : Option String := none
  error : Option String := none
  error_details : Option ErrorDetails := none
  result : Option EnhancedResult := none

/-- How the body of `process_file_background` terminated: the pipeline
returned a value (`none` models the `None` returned on an infrastructure
exception inside `Pipeline.process`), or an unexpected exception with the
given text was raised outside the two pipeline stages. -/
inductive BackgroundOutcome where
  | ok (result : Option PipelineResult)
  | raised (msg : String)

/-- The PROCESSING update done at the top of `process_file_background`. -/
def beginProcessing (rec : JobRecord) (started_at : String) : JobRecord :=
  { rec with status := "PROCESSING", started_at := some started_at }

/-- The terminal update of the job record performed by
`process_file_background` once the pipeline (or the surrounding try block)
has finished. -/
def finalizeJob (rec : JobRecord) (outcome : BackgroundOutcome) (completed_at : String) :
    JobRecord :=
  match outcome with
  | .raised msg =>
      { rec with status := "FAILED", completed_at := some completed_at, error := some msg }
  | .ok none =>
      { rec with status := "FAILED", completed_at := some completed_at,
                 error := some "Error crítico en pipeline - resultado nulo" }
  | .ok (some r) =>
      if r.status = "FAILED" then
        let errors := match r.error_details with
          | some d => d.errors
          | none => ["Error desconocido en pipeline"]
        { rec with status := "FAILED", completed_at := some completed_at,
                   error := some (String.intercalate "; " errors),
                   error_details := r.error_details }
      else
        { rec with status := "COMPLETED", completed_at := some completed_at,
                   result := some (enhanced_result r) }

/-- The whole record transformation of one `process_file_background` run:
mark PROCESSING, then apply the terminal update. -/
def process_file_background (rec : JobRecord) (outcome : BackgroundOutcome)
    (started_at completed_at : String) : JobRecord :=
  finalizeJob (beginProcessing rec started_at) outcome completed_at

/-- The response of the `/status/{job_id}` endpoint, keys it may carry. -/
structure StatusResponse where
  job_id : String
  status : String
  filename : String
  created_at : String
  started_at : Option String := none
  completed_at : Option String := none
  result_available : Bool := false
  error : Option String := none

/-- The `get_job_status` projection of one job record (the not-found case is
handled before this point).  `none` models a `KeyError` on the unconditional
`job_data[...]` reads of the terminal branches. -/
def get_job_status (rec : JobRecord) : Option StatusResponse :=
  let base : StatusResponse :=
    { job_id := rec.job_id, status := rec.status,
      filename := rec.filename, created_at := rec.created_at }
  if rec.status = "PROCESSING" then
    some { base with started_at := rec.started_at }
  else if rec.status = "COMPLETED" then
    match rec.completed_at with
    | some c => some { base with completed_at := some c, result_available := true }
    | none => none
  else if rec.status = "FAILED" then
    match rec.completed_at, rec.error with
    | some c, some e => some { base with completed_at := some c, error := some e }
    | _, _ => none
  else
    some base

/-- One simplified entry of the `/jobs` listing. -/
structure SimpleJob where
  job_id : String
  status : String
  filename : String
  created_at : String
  completed_at : Option String := none
  error : Option String := none

/-- The per-job simplification loop of `list_jobs`.  `none` models a
`KeyError` on the unconditional `job["completed_at"]` read of the COMPLETED
branch; the FAILED branch uses a defensive `.get`. -/
def list_entry (rec : JobRecord) : Option SimpleJob :=
  let base : SimpleJob :=
    { job_id := rec.job_id, status := rec.status,
      filename := rec.filename, created_at := rec.created_at }
  if rec.status = "COMPLETED" then
    match rec.completed_at with
    | some c => some { base with completed_at := some c }
    | none => none
  else if rec.status = "FAILED" then
    some { base with error := some (rec.error.getD "Unknown error") }
  else
    some base

/-- The in-memory `job_storage` dict: association list from job id to record. -/
abbrev JobStore := List (String × JobRecord)

/-- In-place update of the record stored under `id` (Python
`job_storage[id].update(...)`); ids other than `id` are untouched. -/
def storeUpdate (σ : JobStore) (id : String) (f : JobRecord → JobRecord) : JobStore :=
  σ.map (fun p => if p.1 = id then (p.1, f p.2) else p)

/-- The `job_storage.pop(id)`. -/
def storeDelete (σ : JobStore) (id : String) : JobStore :=
  σ.filter (fun p => p.1 != id)

/-- The fresh PENDING record created by the upload endpoint. -/
def newJobRecord (job_id : String) (filename : List Char) (content : List Nat)
    (created_at file_path : String) : JobRecord :=
  { job_id := job_id, status := "PENDING", filename := String.mk filename,
    file_size_mb := round2 ((content.length : Rat) / (1024 * 1024)),
    created_at := created_at, file_path := file_path }

/-- The `/upload` endpoint up to scheduling: validate, save the temp file
(`saveOk` models the filesystem), and create the PENDING record.  On any
validation failure the store is returned unchanged and no job id is issued. -/
def upload_document (sett : Settings) (σ : JobStore) (filename : List Char)
    (content : List Nat) (job_id created_at file_path : String) (saveOk : Bool) :
    JobStore × Except ValError String :=
  match validate_document sett filename content with
  | .error e => (σ, .error e)
  | .ok _ =>
      if ¬ saveOk then (σ, .error .saveFailed)
      else (σ ++ [(job_id, newJobRecord job_id filename content created_at file_path)],
            .ok job_id)

/-- The operations that mutate `job_storage`. -/
inductive JobOp where
  | upload (sett : Settings) (filename : List Char) (content : List Nat)
      (job_id created_at file_path : String) (saveOk : Bool)
  | beginJob (job_id started_at : String)
  | finishJob (job_id : String) (outcome : BackgroundOutcome) (completed_at : String)
  | deleteJob (job_id : String)

/-- Effect of one operation on the store. -/
def applyOp (σ : JobStore) : JobOp → JobStore
  | .upload sett filename content job_id created_at file_path saveOk =>
      (upload_document sett σ filename content job_id created_at file_path saveOk).1
  | .beginJob id ts => storeUpdate σ id (fun r => beginProcessing r ts)
  | .finishJob id outcome ts => storeUpdate σ id (fun r => finalizeJob r outcome ts)
  | .deleteJob id => storeDelete σ id

/-- The store obtained by running a sequence of operations from the empty
store of process start-up. -/
def runOps (ops : List JobOp) : JobStore :=
  ops.foldl applyOp []

-- === Helper lemmas ===

/-- Stage B is a pure pass-through on an already-FAILED state. -/
theorem llm_node_failed (sett : Settings) (env : LLMEnv) (ts : String) (state : PipelineState)
    (h : state.processing_control.status = "FAILED") :
    llm_node sett env ts state = (state, 0) := by
  unfold llm_node
  rw [if_pos h]

/-- The `add_message` does not touch the processing control block. -/
theorem add_message_control (state : PipelineState) (ts m : String) :
    (state.add_message ts m).processing_control = state.processing_control := rfl

/-- The `add_error` forces status FAILED. -/
theorem add_error_status (state : PipelineState) (ts e : String) :
    (state.add_error ts e).processing_control.status = "FAILED" := rfl

/-- The `update_stage` does not touch the status. -/
theorem update_stage_status (state : PipelineState) (ts st : String) :
    (state.update_stage ts st).processing_control.status = state.processing_control.status := rfl

/-- Stage A never changes the status except through `add_error`: on any input
and environment the resulting status is the incoming status or FAILED. -/
theorem image_node_status_cases (sett : Settings) (env : OCREnv) (ts : String)
    (state : PipelineState) :
    (image_processing_node sett env ts state).1.processing_control.status
        = state.processing_control.status ∨
    (image_processing_node sett env ts state).1.processing_control.status = "FAILED" := by
  unfold image_processing_node
  dsimp only
  repeat' split
  all_goals first
    | exact Or.inr rfl
    | exact Or.inl rfl

-- Projection lemmas for the state mutators (all definitional).

@[simp] theorem add_message_document_info (s : PipelineState) (ts m : String) :
    (s.add_message ts m).document_info = s.document_info := rfl

@[simp] theorem add_message_processing_data (s : PipelineState) (ts m : String) :
    (s.add_message ts m).processing_data = s.processing_data := rfl

@[simp] theorem add_message_processing_control (s : PipelineState) (ts m : String) :
    (s.add_message ts m).processing_control = s.processing_control := rfl

@[simp] theorem add_message_metrics (s : PipelineState) (ts m : String) :
    (s.add_message ts m).metrics = s.metrics := rfl

@[simp] theorem add_message_extracted_data (s : PipelineState) (ts m : String) :
    (s.add_message ts m).extracted_data = s.extracted_data := rfl

@[simp] theorem add_message_messages (s : PipelineState) (ts m : String) :
    (s.add_message ts m).logging.messages = s.logging.messages ++ ["[" ++ ts ++ "] " ++ m] := rfl

@[simp] theorem add_message_errors (s : PipelineState) (ts m : String) :
    (s.add_message ts m).logging.errors = s.logging.errors := rfl

@[simp] theorem add_message_warnings (s : PipelineState) (ts m : String) :
    (s.add_message ts m).logging.warnings = s.logging.warnings := rfl

@[simp] theorem add_message_debug_info (s : PipelineState) (ts m : String) :
    (s.add_message ts m).logging.debug_info = s.logging.debug_info := rfl

@[simp] theorem add_error_document_info (s : PipelineState) (ts e : String) :
    (s.add_error ts e).document_info = s.document_info := rfl

@[simp] theorem add_error_processing_data (s : PipelineState) (ts e : String) :
    (s.add_error ts e).processing_data = s.processing_data := rfl

@[simp] theorem add_error_status_eq (s : PipelineState) (ts e : String) :
    (s.add_error ts e).processing_control.status = "FAILED" := rfl

@[simp] theorem add_error_stage (s : PipelineState) (ts e : String) :
    (s.add_error ts e).processing_control.processing_stage
      = s.processing_control.processing_stage := rfl

@[simp] theorem add_error_metrics (s : PipelineState) (ts e : String) :
    (s.add_error ts e).metrics = s.metrics := rfl

@[simp] theorem add_error_extracted_data (s : PipelineState) (ts e : String) :
    (s.add_error ts e).extracted_data = s.extracted_data := rfl

@[simp] theorem add_error_errors (s : PipelineState) (ts e : String) :
    (s.add_error ts e).logging.errors = s.logging.errors ++ ["[" ++ ts ++ "] " ++ e] := rfl

@[simp] theorem add_error_messages (s : PipelineState) (ts e : String) :
    (s.add_error ts e).logging.messages = s.logging.messages := rfl

@[simp] theorem add_error_warnings (s : PipelineState) (ts e : String) :
    (s.add_error ts e).logging.warnings = s.logging.warnings := rfl

@[simp] theorem add_error_debug_info (s : PipelineState) (ts e : String) :
    (s.add_error ts e).logging.debug_info = s.logging.debug_info := rfl

@[simp] theorem update_stage_document_info (s : PipelineState) (ts st : String) :
    (s.update_stage ts st).document_info = s.document_info := rfl

@[simp] theorem update_stage_processing_data (s : PipelineState) (ts st : String) :
    (s.update_stage ts st).processing_data = s.processing_data := rfl

@[simp] theorem update_stage_status_eq (s : PipelineState) (ts st : String) :
    (s.update_stage ts st).processing_control.status = s.processing_control.status := rfl

@[simp] theorem update_stage_stage (s : PipelineState) (ts st : String) :
    (s.update_stage ts st).processing_control.processing_stage = st := rfl

@[simp] theorem update_stage_metrics (s : PipelineState) (ts st : String) :
    (s.update_stage ts st).metrics = s.metrics := rfl

@[simp] theorem update_stage_extracted_data (s : PipelineState) (ts st : String) :
    (s.update_stage ts st).extracted_data = s.extracted_data := rfl

@[simp] theorem update_stage_messages (s : PipelineState) (ts st : String) :
    (s.update_stage ts st).logging.messages
      = s.logging.messages ++ ["[" ++ ts ++ "] " ++ ("Iniciando etapa: " ++ st)] := rfl

@[simp] theorem update_stage_errors (s : PipelineState) (ts st : String) :
    (s.update_stage ts st).logging.errors = s.logging.errors := rfl

@[simp] theorem update_stage_warnings (s : PipelineState) (ts st : String) :
    (s.update_stage ts st).logging.warnings = s.logging.warnings := rfl

@[simp] theorem update_stage_debug_info (s : PipelineState) (ts st : String) :
    (s.update_stage ts st).logging.debug_info = s.logging.debug_info := rfl

@[simp] theorem update_metrics_tokens (s : PipelineState) (tk : Nat) (td : Rat) :
    (s.update_metrics tk td).metrics.tokens_used = s.metrics.tokens_used + tk := rfl

@[simp] theorem update_metrics_time (s : PipelineState) (tk : Nat) (td : Rat) :
    (s.update_metrics tk td).metrics.processing_time = s.metrics.processing_time + td := rfl

@[simp] theorem update_metrics_cost (s : PipelineState) (tk : Nat) (td : Rat) :
    (s.update_metrics tk td).metrics.cost_estimate
      = s.metrics.cost_estimate + ((tk : Rat) / 1000) * 0.00015 := rfl

@[simp] theorem update_metrics_model (s : PipelineState) (tk : Nat) (td : Rat) :
    (s.update_metrics tk td).metrics.llm_model = s.metrics.llm_model := rfl

@[simp] theorem update_metrics_document_info (s : PipelineState) (tk : Nat) (td : Rat) :
    (s.update_metrics tk td).document_info = s.document_info := rfl

@[simp] theorem update_metrics_processing_data (s : PipelineState) (tk : Nat) (td : Rat) :
    (s.update_metrics tk td).processing_data = s.processing_data := rfl

@[simp] theorem update_metrics_processing_control (s : PipelineState) (tk : Nat) (td : Rat) :
    (s.update_metrics tk td).processing_control = s.processing_control := rfl

@[simp] theorem update_metrics_logging (s : PipelineState) (tk : Nat) (td : Rat) :
    (s.update_metrics tk td).logging = s.logging := rfl

@[simp] theorem update_metrics_extracted_data (s : PipelineState) (tk : Nat) (td : Rat) :
    (s.update_metrics tk td).extracted_data = s.extracted_data := rfl

/-- A FAILED status entering Stage A leaves FAILED (Stage A only ever writes
the status through `add_error`). -/
theorem image_node_failed_stays (sett : Settings) (env : OCREnv) (ts : String)
    (state : PipelineState) (h : state.processing_control.status = "FAILED") :
    (image_processing_node sett env ts state).1.processing_control.status = "FAILED" := by
  rcases image_node_status_cases sett env ts state with h2 | h2
  · rw [h2, h]
  · exact h2

/-- The float size test of the source is exactly the integral byte bound. -/
theorem size_gt_iff (bytes m : Nat) :
    (((bytes : Rat) / (1024 * 1024)) > (m : Rat)) ↔ bytes > m * (1024 * 1024) := by
  rw [gt_iff_lt, lt_div_iff₀ (by norm_num : (0 : Rat) < 1024 * 1024)]
  constructor
  · intro h
    exact_mod_cast h
  · intro h
    exact_mod_cast h

/-- Key membership after a Python dict update. -/
theorem mem_dictKeys_dictSet (d : List (String × α)) (k k2 : String) (v : α) :
    k2 ∈ dictKeys (dictSet d k v) ↔ (k2 ∈ dictKeys d ∨ k2 = k) := by
  unfold dictSet dictKeys
  split
  · rename_i hany
    have hk : k ∈ d.map Prod.fst := by
      rcases List.any_eq_true.mp hany with ⟨p, hp, he⟩
      rcases of_decide_eq_true he with he2
      exact he2 ▸ List.mem_map_of_mem Prod.fst hp
    have hkeys : (d.map fun p => if p.1 = k then (k, v) else p).map Prod.fst = d.map Prod.fst := by
      rw [List.map_map]
      apply List.map_congr_left
      intro p _
      by_cases hp : p.1 = k
      · simp [hp]
      · simp [hp]
    rw [hkeys]
    constructor
    · exact Or.inl
    · rintro (h | h)
      · exact h
      · exact h ▸ hk
  · simp [List.map_append]

/-- Stage A on a validated file whose OCR text is empty or whitespace-only:
it records the no-text failure after exactly one OCR call. -/
theorem image_node_no_text_spec (sett : Settings) (env : OCREnv) (ts : String)
    (state : PipelineState) (t : String)
    (h1 : env.vision.1 = true) (h2 : env.image_deps = Except.ok ())
    (h3 : env.file_exists = true)
    (h4 : is_image_file state.document_info.file_path = true)
    (h5 : env.file_size_bytes ≤ sett.max_image_size_mb * (1024 * 1024))
    (h6 : env.ocrResult = Except.ok t) (h7 : pyStripStr t = "") :
    (image_processing_node sett env ts state).1.processing_control.status = "FAILED" ∧
    ("[" ++ ts ++ "] " ++ "No se detectó texto en la imagen")
        ∈ (image_processing_node sett env ts state).1.logging.errors ∧
    (image_processing_node sett env ts state).2 = 1 := by
  have h5R : ¬(((env.file_size_bytes : Rat) / (1024 * 1024)) > (sett.max_image_size_mb : Rat)) := by
    rw [size_gt_iff]
    exact Nat.not_lt.mpr h5
  unfold image_processing_node
  rw [h2, h6]
  simp [h1, h3, h4, h7, if_neg h5R]

/-- Stage A on a validated file with nonempty OCR text: the trimmed raw text
is stored, all other state blocks are preserved, an informational message and
the diagnostics entry are added, and exactly one OCR call is made.
`ocr_confidence` is left untouched. -/
theorem image_node_success_spec (sett : Settings) (env : OCREnv) (ts : String)
    (state : PipelineState) (t : String)
    (h1 : env.vision.1 = true) (h2 : env.image_deps = Except.ok ())
    (h3 : env.file_exists = true)
    (h4 : is_image_file state.document_info.file_path = true)
    (h5 : env.file_size_bytes ≤ sett.max_image_size_mb * (1024 * 1024))
    (h6 : env.ocrResult = Except.ok t) (h7 : pyStripStr t ≠ "") :
    (image_processing_node sett env ts state).1.processing_control.status
        = state.processing_control.status ∧
    (image_processing_node sett env ts state).1.processing_data.raw_text
        = some (pyStripStr t) ∧
    (image_processing_node sett env ts state).1.processing_data.ocr_confidence
        = state.processing_data.ocr_confidence ∧
    (image_processing_node sett env ts state).1.logging.errors = state.logging.errors ∧
    (image_processing_node sett env ts state).1.extracted_data = state.extracted_data ∧
    (image_processing_node sett env ts state).1.metrics = state.metrics ∧
    (image_processing_node sett env ts state).1.document_info = state.document_info ∧
    ("[" ++ ts ++ "] " ++ ("Texto extraído: " ++ toString t.length ++ " caracteres"))
        ∈ (image_processing_node sett env ts state).1.logging.messages ∧
    "image_processing_stats" ∈ dictKeys (image_processing_node sett env ts state).1.logging.debug_info ∧
    (image_processing_node sett env ts state).2 = 1 := by
  have h5R : ¬(((env.file_size_bytes : Rat) / (1024 * 1024)) > (sett.max_image_size_mb : Rat)) := by
    rw [size_gt_iff]
    exact Nat.not_lt.mpr h5
  unfold image_processing_node
  rw [h2, h6]
  simp [h1, h3, h4, h7, if_neg h5R, mem_dictKeys_dictSet]

/-- The `isPrefixOf` accepts the left factor of an append. -/
theorem isPrefixOf_append_self [BEq α] [LawfulBEq α] (l t : List α) :
    l.isPrefixOf (l ++ t) = true := by
  induction l with
  | nil => simp [List.isPrefixOf]
  | cons a l2 ih => simp [List.isPrefixOf, ih]

/-- The `isSuffixOf` accepts the right factor of an append. -/
theorem isSuffixOf_append_self [BEq α] [LawfulBEq α] (l t : List α) :
    l.isSuffixOf (t ++ l) = true := by
  unfold List.isSuffixOf
  rw [List.reverse_append]
  exact isPrefixOf_append_self l.reverse t.reverse

/-- A fenced response has no surrounding whitespace, so the first strip is the
identity. -/
theorem pyStrip_fenced (s : List Char) :
    pyStrip ("```json".toList ++ s ++ "```".toList)
      = "```json".toList ++ s ++ "```".toList := by
  unfold pyStrip
  have h1 : List.dropWhile Char.isWhitespace "```json".toList = "```json".toList := by decide
  have h3 : ("```json".toList).isEmpty = false := by decide
  have h2 : List.dropWhile Char.isWhitespace ("```".toList.reverse) = "```".toList.reverse := by
    decide
  have h4 : ("```".toList.reverse).isEmpty = false := by decide
  rw [List.append_assoc, List.dropWhile_append, h1, h3]
  simp only [Bool.false_eq_true, if_false]
  rw [List.reverse_append, List.reverse_append, List.append_assoc,
      List.dropWhile_append, h2, h4]
  simp only [Bool.false_eq_true, if_false]
  simp [List.reverse_append]

/-- The response post-processing on a fenced payload yields the stripped
payload: the leading three-backtick-json marker and the trailing
three-backtick marker are removed before parsing. -/
theorem cleanLLMContent_fenced (s : List Char) :
    cleanLLMContent ("```json".toList ++ s ++ "```".toList) = pyStrip s := by
  unfold cleanLLMContent stripFences
  rw [pyStrip_fenced]
  have hpre : ("```json".toList).isPrefixOf ("```json".toList ++ (s ++ "```".toList)) = true :=
    isPrefixOf_append_self _ _
  rw [List.append_assoc]
  simp only [hpre, if_true]
  have hlen : ("```json".toList).length = 7 := by decide
  rw [← hlen, List.drop_left]
  have hsuf : ("```".toList).isSuffixOf (s ++ "```".toList) = true :=
    isSuffixOf_append_self _ _
  simp only [hsuf, if_true]
  have hlen3 : (s ++ "```".toList).length - 3 = s.length := by
    simp
  rw [hlen3, List.take_left]

/-- Stage B on a non-FAILED state with text available, working client, a
successful completion call and a JSON-object parse: merges the fields, adds
the token count and the hardcoded cost increment, sets COMPLETED, and records
the success message after exactly one LLM call.  `processing_time` is not
advanced and the incoming errors are untouched. -/
theorem llm_node_success_spec (sett : Settings) (env : LLMEnv) (ts : String)
    (state : PipelineState) (t : String) (resp : LLMResponse) (fields : List (String × Json))
    (h0 : ¬ state.processing_control.status = "FAILED")
    (h1 : env.clientInit = Except.ok ())
    (h2 : state.processing_data.raw_text = some t) (h3 : ¬ t = "")
    (h4 : env.callResult = Except.ok resp)
    (h5 : env.parse (cleanLLMContent resp.content) = Except.ok (Json.obj fields)) :
    (llm_node sett env ts state).1.processing_control.status = "COMPLETED" ∧
    (llm_node sett env ts state).1.extracted_data = fields ∧
    (llm_node sett env ts state).1.metrics.tokens_used
        = state.metrics.tokens_used + resp.tokens_used ∧
    (llm_node sett env ts state).1.metrics.cost_estimate
        = state.metrics.cost_estimate + ((resp.tokens_used : Rat) / 1000) * 0.00015 ∧
    (llm_node sett env ts state).1.metrics.processing_time = state.metrics.processing_time ∧
    (llm_node sett env ts state).1.processing_data = state.processing_data ∧
    (llm_node sett env ts state).1.logging.errors = state.logging.errors ∧
    ("[" ++ ts ++ "] " ++ ("Extracción completada: " ++ toString fields.length
        ++ " campos extraídos")) ∈ (llm_node sett env ts state).1.logging.messages ∧
    "llm_stats" ∈ dictKeys (llm_node sett env ts state).1.logging.debug_info ∧
    (llm_node sett env ts state).2 = 1 := by
  have h5b : env.parse (pyStrip (stripFences (pyStrip resp.content)))
      = Except.ok (Json.obj fields) := h5
  unfold llm_node
  rw [if_neg h0, h1]
  dsimp only
  have hgen : generate_extraction_prompts (state.update_stage ts "llm_processing")
      = Except.ok (EXTRACTION_SYSTEM_PROMPT, extraction_user_prompt t) := by
    unfold generate_extraction_prompts
    rw [update_stage_processing_data, h2]
    simp [h3]
  rw [hgen, h4]
  dsimp only
  rw [h5b]
  simp [mem_dictKeys_dictSet]

/-- Stage B when the parsed response is valid JSON but not an object: the
stage fails with the invalid-shape error, leaves `extracted_data` and the
metrics untouched, after exactly one LLM call. -/
theorem llm_node_not_obj_spec (sett : Settings) (env : LLMEnv) (ts : String)
    (state : PipelineState) (t : String) (resp : LLMResponse) (v : Json)
    (h0 : ¬ state.processing_control.status = "FAILED")
    (h1 : env.clientInit = Except.ok ())
    (h2 : state.processing_data.raw_text = some t) (h3 : ¬ t = "")
    (h4 : env.callResult = Except.ok resp)
    (h5 : env.parse (cleanLLMContent resp.content) = Except.ok v)
    (h6 : ∀ fields, ¬ v = Json.obj fields) :
    (llm_node sett env ts state).1.processing_control.status = "FAILED" ∧
    ("[" ++ ts ++ "] " ++ "Error en extracción LLM: Respuesta de OpenAI no es un objeto JSON válido")
        ∈ (llm_node sett env ts state).1.logging.errors ∧
    (llm_node sett env ts state).1.extracted_data = state.extracted_data ∧
    (llm_node sett env ts state).1.metrics = state.metrics ∧
    (llm_node sett env ts state).2 = 1 := by
  have h5b : env.parse (pyStrip (stripFences (pyStrip resp.content))) = Except.ok v := h5
  unfold llm_node
  rw [if_neg h0, h1]
  dsimp only
  have hgen : generate_extraction_prompts (state.update_stage ts "llm_processing")
      = Except.ok (EXTRACTION_SYSTEM_PROMPT, extraction_user_prompt t) := by
    unfold generate_extraction_prompts
    rw [update_stage_processing_data, h2]
    simp [h3]
  rw [hgen, h4]
  dsimp only
  rw [h5b]
  cases v with
  | obj fields => exact absurd rfl (h6 fields)
  | null => simp
  | bool b => simp
  | num q => simp
  | str s2 => simp
  | arr xs => simp

-- === Concrete fixtures for witnesses and counterexamples ===

/-- A Stage A environment in which every collaborator check passes and the
OCR call returns legible text. -/
def okOCREnv : OCREnv :=
  { vision := (true, "Google Vision API disponible"),
    image_deps := Except.ok (),
    file_exists := true,
    file_size_bytes := 2048,
    ocrResult := Except.ok "DNI 12345678 PEREZ",
    elapsed := 1 }

/-- A Stage A environment identical to `okOCREnv` but whose OCR call returns
whitespace-only text. -/
def blankOCREnv : OCREnv :=
  { okOCREnv with ocrResult := Except.ok "   " }

/-- A Stage B environment whose completion call raises. -/
def failLLMEnv : LLMEnv :=
  { clientInit := Except.ok (),
    callResult := Except.error "connection timeout",
    parse := fun _ => Except.error "Expecting value" }

/-- A pipeline state that has already failed before a stage begins. -/
def failedStateFixture : PipelineState :=
  { document_info := { file_path := "./temp/upload_doc.png", filename := "doc.png" },
    processing_control := { processing_stage := "ingestion", status := "FAILED" } }

-- === Claim theorems ===

/-- C2: for every pipeline state whose status is already FAILED when Stage B
begins, Stage B makes no LLM call and returns the state unchanged — no error
is overwritten, no stage update, no metric or message is added. -/
theorem C2_stage_b_failed_is_pure_passthrough (sett : Settings) (env : LLMEnv)
    (ts : String) (state : PipelineState)
    (h : state.processing_control.status = "FAILED") :
    llm_node sett env ts state = (state, 0) :=
  llm_node_failed sett env ts state h

/-- C2 witness at a concrete FAILED state. -/
theorem C2_stage_b_failed_is_pure_passthrough_witness :
    llm_node defaultSettings failLLMEnv "12:00:00" failedStateFixture
      = (failedStateFixture, 0) :=
  C2_stage_b_failed_is_pure_passthrough defaultSettings failLLMEnv "12:00:00"
    failedStateFixture rfl

/-- C3 counterexample: Stage A does not check the failure flag.  On an
already-FAILED state with an all-passing environment it still invokes the OCR
collaborator (call count 1, not 0) and mutates the state, so the claim that
each stage no-ops when the flag is set is false for Stage A. -/
theorem C3_stage_a_ignores_failed_flag_counterexample :
    (image_processing_node defaultSettings okOCREnv "12:00:01" failedStateFixture).2 = 1 ∧
    ¬ ((image_processing_node defaultSettings okOCREnv "12:00:01" failedStateFixture).1
        = failedStateFixture) := by
  have h := image_node_success_spec defaultSettings okOCREnv "12:00:01" failedStateFixture
    "DNI 12345678 PEREZ" rfl rfl rfl (by decide) (by decide) rfl (by decide)
  refine ⟨h.2.2.2.2.2.2.2.2.2, ?_⟩
  intro heq
  have hrt : (image_processing_node defaultSettings okOCREnv "12:00:01"
      failedStateFixture).1.processing_data.raw_text
        = failedStateFixture.processing_data.raw_text := by rw [heq]
  rw [h.2.1] at hrt
  simp [failedStateFixture] at hrt

/-- C3 (amended): once the status is FAILED it is monotonic — Stage A never
reverts it (it only ever writes the status through `add_error`) and Stage B
returns the state unchanged — so the composed pipeline keeps FAILED; however,
only Stage B checks the flag and no-ops, while Stage A still does its work on
an already-FAILED state. -/
theorem C3_failed_status_is_monotonic (sett : Settings) (oenv : OCREnv) (lenv : LLMEnv)
    (ts1 ts2 : String) (state : PipelineState)
    (h : state.processing_control.status = "FAILED") :
    (image_processing_node sett oenv ts1 state).1.processing_control.status = "FAILED" ∧
    llm_node sett lenv ts2 state = (state, 0) ∧
    (llm_node sett lenv ts2
        (image_processing_node sett oenv ts1 state).1).1.processing_control.status
      = "FAILED" := by
  have h2 := image_node_failed_stays sett oenv ts1 state h
  refine ⟨h2, llm_node_failed sett lenv ts2 state h, ?_⟩
  rw [llm_node_failed sett lenv ts2 _ h2]
  exact h2

/-- C3 witness at a concrete FAILED state and all-passing environments. -/
theorem C3_failed_status_is_monotonic_witness :
    (image_processing_node defaultSettings okOCREnv "12:00:01"
        failedStateFixture).1.processing_control.status = "FAILED" ∧
    llm_node defaultSettings failLLMEnv "12:00:02" failedStateFixture
      = (failedStateFixture, 0) ∧
    (llm_node defaultSettings failLLMEnv "12:00:02"
        (image_processing_node defaultSettings okOCREnv "12:00:01"
          failedStateFixture).1).1.processing_control.status = "FAILED" :=
  C3_failed_status_is_monotonic defaultSettings okOCREnv failLLMEnv
    "12:00:01" "12:00:02" failedStateFixture rfl

/-- C4: whenever the OCR collaborator returns empty or whitespace-only text
on a validated file, Stage A records the no-text failure (status FAILED with
the `No se detectó texto en la imagen` error, not an exception) and Stage B
then passes the state through making zero LLM calls. -/
theorem C4_empty_ocr_text_fails_without_llm_call (sett : Settings) (oenv : OCREnv)
    (lenv : LLMEnv) (ts1 ts2 file_path filename t : String)
    (h1 : oenv.vision.1 = true) (h2 : oenv.image_deps = Except.ok ())
    (h3 : oenv.file_exists = true) (h4 : is_image_file file_path = true)
    (h5 : oenv.file_size_bytes ≤ sett.max_image_size_mb * (1024 * 1024))
    (h6 : oenv.ocrResult = Except.ok t) (h7 : pyStripStr t = "") :
    (image_processing_node sett oenv ts1
        (create_initial_state file_path filename)).1.processing_control.status = "FAILED" ∧
    ("[" ++ ts1 ++ "] " ++ "No se detectó texto en la imagen")
        ∈ (image_processing_node sett oenv ts1
            (create_initial_state file_path filename)).1.logging.errors ∧
    llm_node sett lenv ts2
        (image_processing_node sett oenv ts1 (create_initial_state file_path filename)).1
      = ((image_processing_node sett oenv ts1
            (create_initial_state file_path filename)).1, 0) := by
  obtain ⟨ha, hb, _⟩ := image_node_no_text_spec sett oenv ts1
    (create_initial_state file_path filename) t h1 h2 h3 h4 h5 h6 h7
  exact ⟨ha, hb, llm_node_failed sett lenv ts2 _ ha⟩

/-- C4 witness: a whitespace-only OCR result on a concrete submission. -/
theorem C4_empty_ocr_text_fails_without_llm_call_witness :
    (image_processing_node defaultSettings blankOCREnv "09:00:00"
        (create_initial_state "./temp/upload_doc.png" "doc.png")).1.processing_control.status
      = "FAILED" ∧
    ("[" ++ "09:00:00" ++ "] " ++ "No se detectó texto en la imagen")
        ∈ (image_processing_node defaultSettings blankOCREnv "09:00:00"
            (create_initial_state "./temp/upload_doc.png" "doc.png")).1.logging.errors ∧
    llm_node defaultSettings failLLMEnv "09:00:01"
        (image_processing_node defaultSettings blankOCREnv "09:00:00"
          (create_initial_state "./temp/upload_doc.png" "doc.png")).1
      = ((image_processing_node defaultSettings blankOCREnv "09:00:00"
            (create_initial_state "./temp/upload_doc.png" "doc.png")).1, 0) :=
  C4_empty_ocr_text_fails_without_llm_call defaultSettings blankOCREnv failLLMEnv
    "09:00:00" "09:00:01" "./temp/upload_doc.png" "doc.png" "   "
    rfl rfl rfl (by decide) (by decide) rfl (by decide)

/-- Modelled from the spec: the (input, output) price per 1000 tokens of the
configured model, looked up in the configured pricing table.  The source
defines the `openai_pricing` table but never defines or uses such a lookup;
this definition follows the spec wording so the cost claim can be compared
against what the code computes. -/
def specConfiguredPrice (sett : Settings) : Option (Rat × Rat) :=
  (sett.openai_pricing.find? (fun p => p.1 == sett.llm_model)).map Prod.snd

/-- Settings with a non-default configured model. -/
def gpt4oSettings : Settings :=
  { llm_model := "gpt-4o" }

/-- A state in which Stage A has succeeded: raw text available, everything
else at its defaults. -/
def textState : PipelineState :=
  { processing_data := { raw_text := some "DNI 12345678 PEREZ" } }

/-- A Stage B environment whose completion call returns a bare JSON object
and whose parser behaves like `json.loads` on the strings involved. -/
def okLLMEnv : LLMEnv :=
  { clientInit := Except.ok (),
    callResult := Except.ok
      { content := "\x7b\"numero_documento\": \"12345678\"\x7d".toList, tokens_used := 1000 },
    parse := fun s =>
      if s = "\x7b\"numero_documento\": \"12345678\"\x7d".toList then
        Except.ok (Json.obj [("numero_documento", Json.str "12345678")])
      else Except.error "Expecting value: line 1 column 1 (char 0)" }

/-- A Stage B environment whose completion call returns the same object
wrapped in a ```json fence. -/
def fencedLLMEnv : LLMEnv :=
  { okLLMEnv with
    callResult := Except.ok
      { content := ("```json".toList
          ++ "\n\x7b\"numero_documento\": \"12345678\"\x7d\n".toList ++ "```".toList),
        tokens_used := 700 } }

/-- A Stage B environment whose completion call returns a JSON array (valid
JSON that is not a mapping). -/
def arrLLMEnv : LLMEnv :=
  { clientInit := Except.ok (),
    callResult := Except.ok { content := "[1, 2]".toList, tokens_used := 300 },
    parse := fun s =>
      if s = "[1, 2]".toList then Except.ok (Json.arr [Json.num 1, Json.num 2])
      else Except.error "Expecting value: line 1 column 1 (char 0)" }

/-- C5 counterexample: with `llm_model` configured to `gpt-4o`, a successful
Stage B run still increases the cost estimate by the hardcoded
`(tokens / 1000) * 0.00015` of `update_metrics`, which matches neither the
input nor the output per-token price of `gpt-4o` in the configured pricing
table — the table and the configured model are never consulted. -/
theorem C5_cost_ignores_configured_model_counterexample :
    (llm_node gpt4oSettings okLLMEnv "10:00:00" textState).1.metrics.cost_estimate
      = textState.metrics.cost_estimate + ((1000 : Rat) / 1000) * 0.00015 ∧
    specConfiguredPrice gpt4oSettings = some (0.0025, 0.01) ∧
    ¬ (((1000 : Rat) / 1000) * 0.00015 = (1000 : Rat) * (0.0025 / 1000)) ∧
    ¬ (((1000 : Rat) / 1000) * 0.00015 = (1000 : Rat) * (0.01 / 1000)) := by
  have h := llm_node_success_spec gpt4oSettings okLLMEnv "10:00:00" textState
    "DNI 12345678 PEREZ"
    { content := "\x7b\"numero_documento\": \"12345678\"\x7d".toList, tokens_used := 1000 }
    [("numero_documento", Json.str "12345678")]
    (by decide) rfl rfl (by decide) rfl rfl
  refine ⟨h.2.2.2.1, rfl, ?_, ?_⟩
  · norm_num
  · norm_num

/-- C5 (amended): on every successful Stage B run the metrics advance by the
reported token count and by a cost increment of `(tokens / 1000) * 0.00015`
— the gpt-4o-mini input rate hardcoded in `update_metrics` — independently of
`settings.llm_model` and of the configured pricing table; the elapsed-time
metric is not advanced (the stage passes no time delta). -/
theorem C5_metrics_advance_with_hardcoded_price (sett : Settings) (env : LLMEnv)
    (ts : String) (state : PipelineState) (t : String) (resp : LLMResponse)
    (fields : List (String × Json))
    (h0 : ¬ state.processing_control.status = "FAILED")
    (h1 : env.clientInit = Except.ok ())
    (h2 : state.processing_data.raw_text = some t) (h3 : ¬ t = "")
    (h4 : env.callResult = Except.ok resp)
    (h5 : env.parse (cleanLLMContent resp.content) = Except.ok (Json.obj fields)) :
    (llm_node sett env ts state).1.metrics.tokens_used
        = state.metrics.tokens_used + resp.tokens_used ∧
    (llm_node sett env ts state).1.metrics.cost_estimate
        = state.metrics.cost_estimate + ((resp.tokens_used : Rat) / 1000) * 0.00015 ∧
    (llm_node sett env ts state).1.metrics.processing_time
        = state.metrics.processing_time := by
  have h := llm_node_success_spec sett env ts state t resp fields h0 h1 h2 h3 h4 h5
  exact ⟨h.2.2.1, h.2.2.2.1, h.2.2.2.2.1⟩

/-- C5 witness at a concrete successful run. -/
theorem C5_metrics_advance_with_hardcoded_price_witness :
    (llm_node defaultSettings okLLMEnv "10:01:00" textState).1.metrics.tokens_used
        = textState.metrics.tokens_used + 1000 ∧
    (llm_node defaultSettings okLLMEnv "10:01:00" textState).1.metrics.cost_estimate
        = textState.metrics.cost_estimate + ((1000 : Rat) / 1000) * 0.00015 ∧
    (llm_node defaultSettings okLLMEnv "10:01:00" textState).1.metrics.processing_time
        = textState.metrics.processing_time :=
  C5_metrics_advance_with_hardcoded_price defaultSettings okLLMEnv "10:01:00" textState
    "DNI 12345678 PEREZ"
    { content := "\x7b\"numero_documento\": \"12345678\"\x7d".toList, tokens_used := 1000 }
    [("numero_documento", Json.str "12345678")]
    (by decide) rfl rfl (by decide) rfl rfl

/-- C7: the Stage B response post-processing strips a leading ```json fence
marker and a trailing ``` fence marker before JSON parsing, so a fenced
response still yields the structured result; and when the parsed value is
valid JSON but not a mapping, the stage records the invalid-shape error and
fails instead of producing a partial success. -/
theorem C7_fences_stripped_and_non_mapping_fails :
    (∀ s : List Char,
      cleanLLMContent ("```json".toList ++ s ++ "```".toList) = pyStrip s) ∧
    (∀ (sett : Settings) (env : LLMEnv) (ts : String) (state : PipelineState)
        (t : String) (resp : LLMResponse) (fields : List (String × Json)),
      ¬ state.processing_control.status = "FAILED" →
      env.clientInit = Except.ok () →
      state.processing_data.raw_text = some t → ¬ t = "" →
      env.callResult = Except.ok resp →
      env.parse (cleanLLMContent resp.content) = Except.ok (Json.obj fields) →
      (llm_node sett env ts state).1.processing_control.status = "COMPLETED" ∧
      (llm_node sett env ts state).1.extracted_data = fields) ∧
    (∀ (sett : Settings) (env : LLMEnv) (ts : String) (state : PipelineState)
        (t : String) (resp : LLMResponse) (v : Json),
      ¬ state.processing_control.status = "FAILED" →
      env.clientInit = Except.ok () →
      state.processing_data.raw_text = some t → ¬ t = "" →
      env.callResult = Except.ok resp →
      env.parse (cleanLLMContent resp.content) = Except.ok v →
      (∀ fields, ¬ v = Json.obj fields) →
      (llm_node sett env ts state).1.processing_control.status = "FAILED" ∧
      ("[" ++ ts ++ "] "
          ++ "Error en extracción LLM: Respuesta de OpenAI no es un objeto JSON válido")
        ∈ (llm_node sett env ts state).1.logging.errors ∧
      (llm_node sett env ts state).1.extracted_data = state.extracted_data) := by
  refine ⟨cleanLLMContent_fenced, ?_, ?_⟩
  · intro sett env ts state t resp fields h0 h1 h2 h3 h4 h5
    have h := llm_node_success_spec sett env ts state t resp fields h0 h1 h2 h3 h4 h5
    exact ⟨h.1, h.2.1⟩
  · intro sett env ts state t resp v h0 h1 h2 h3 h4 h5 h6
    have h := llm_node_not_obj_spec sett env ts state t resp v h0 h1 h2 h3 h4 h5 h6
    exact ⟨h.1, h.2.1, h.2.2.1⟩

/-- C7 witness: a concrete fenced response parses to the structured result,
and a concrete array response fails with the shape error. -/
theorem C7_fences_stripped_and_non_mapping_fails_witness :
    cleanLLMContent ("```json".toList ++ "\x7b\"a\": 1\x7d".toList ++ "```".toList)
        = pyStrip "\x7b\"a\": 1\x7d".toList ∧
    ((llm_node defaultSettings fencedLLMEnv "11:00:00" textState).1.processing_control.status
        = "COMPLETED" ∧
     (llm_node defaultSettings fencedLLMEnv "11:00:00" textState).1.extracted_data
        = [("numero_documento", Json.str "12345678")]) ∧
    ((llm_node defaultSettings arrLLMEnv "11:00:01" textState).1.processing_control.status
        = "FAILED" ∧
     ("[" ++ "11:00:01" ++ "] "
         ++ "Error en extracción LLM: Respuesta de OpenAI no es un objeto JSON válido")
       ∈ (llm_node defaultSettings arrLLMEnv "11:00:01" textState).1.logging.errors ∧
     (llm_node defaultSettings arrLLMEnv "11:00:01" textState).1.extracted_data
        = textState.extracted_data) :=
  ⟨C7_fences_stripped_and_non_mapping_fails.1 "\x7b\"a\": 1\x7d".toList,
   C7_fences_stripped_and_non_mapping_fails.2.1 defaultSettings fencedLLMEnv "11:00:00"
     textState "DNI 12345678 PEREZ"
     { content := ("```json".toList
         ++ "\n\x7b\"numero_documento\": \"12345678\"\x7d\n".toList ++ "```".toList),
       tokens_used := 700 }
     [("numero_documento", Json.str "12345678")]
     (by decide) rfl rfl (by decide) rfl rfl,
   C7_fences_stripped_and_non_mapping_fails.2.2 defaultSettings arrLLMEnv "11:00:01"
     textState "DNI 12345678 PEREZ"
     { content := "[1, 2]".toList, tokens_used := 300 }
     (Json.arr [Json.num 1, Json.num 2])
     (by decide) rfl rfl (by decide) rfl rfl
     (fun fields h => Json.noConfusion h)⟩

/-- C8 counterexample: a fully successful Stage A run (legible text returned
by the OCR collaborator) leaves `processing_data.ocr_confidence` at the
`ProcessingData` default 0.0 — the stage stores the text but never writes a
confidence value, so the stored confidence does not reflect the OCR run. -/
theorem C8_ocr_confidence_stays_default_counterexample :
    (image_processing_node defaultSettings okOCREnv "08:00:00"
        (create_initial_state "./temp/upload_doc.png" "doc.png")).1.processing_control.status
      = "PROCESSING" ∧
    (image_processing_node defaultSettings okOCREnv "08:00:00"
        (create_initial_state "./temp/upload_doc.png" "doc.png")).1.processing_data.raw_text
      = some "DNI 12345678 PEREZ" ∧
    (image_processing_node defaultSettings okOCREnv "08:00:00"
        (create_initial_state "./temp/upload_doc.png" "doc.png")).1.processing_data.ocr_confidence
      = ({} : ProcessingData).ocr_confidence := by
  have h := image_node_success_spec defaultSettings okOCREnv "08:00:00"
    (create_initial_state "./temp/upload_doc.png" "doc.png") "DNI 12345678 PEREZ"
    rfl rfl rfl (by decide) (by decide) rfl (by decide)
  refine ⟨?_, ?_, ?_⟩
  · rw [h.1]
    rfl
  · rw [h.2.1]
    rfl
  · rw [h.2.2.1]
    rfl

/-- C8 (amended): on every successful Stage A run the state captures the
trimmed raw text, the character-count message and the
`image_processing_stats` diagnostics entry, but no confidence value:
`processing_data.ocr_confidence` is left exactly as it came in (the default
0.0 for a fresh execution), because the OCR helper in use returns text only
and per-word confidences are never propagated. -/
theorem C8_stage_a_captures_text_not_confidence (sett : Settings) (env : OCREnv)
    (ts : String) (state : PipelineState) (t : String)
    (h1 : env.vision.1 = true) (h2 : env.image_deps = Except.ok ())
    (h3 : env.file_exists = true)
    (h4 : is_image_file state.document_info.file_path = true)
    (h5 : env.file_size_bytes ≤ sett.max_image_size_mb * (1024 * 1024))
    (h6 : env.ocrResult = Except.ok t) (h7 : ¬ pyStripStr t = "") :
    (image_processing_node sett env ts state).1.processing_data.raw_text
        = some (pyStripStr t) ∧
    ("[" ++ ts ++ "] " ++ ("Texto extraído: " ++ toString t.length ++ " caracteres"))
        ∈ (image_processing_node sett env ts state).1.logging.messages ∧
    "image_processing_stats"
        ∈ dictKeys (image_processing_node sett env ts state).1.logging.debug_info ∧
    (image_processing_node sett env ts state).1.processing_data.ocr_confidence
        = state.processing_data.ocr_confidence := by
  have h := image_node_success_spec sett env ts state t h1 h2 h3 h4 h5 h6 h7
  exact ⟨h.2.1, h.2.2.2.2.2.2.2.1, h.2.2.2.2.2.2.2.2.1, h.2.2.1⟩

/-- C8 witness at a concrete successful Stage A run. -/
theorem C8_stage_a_captures_text_not_confidence_witness :
    (image_processing_node defaultSettings okOCREnv "08:01:00"
        (create_initial_state "./temp/upload_doc.png" "doc.png")).1.processing_data.raw_text
      = some (pyStripStr "DNI 12345678 PEREZ") ∧
    ("[" ++ "08:01:00" ++ "] "
        ++ ("Texto extraído: " ++ toString ("DNI 12345678 PEREZ").length ++ " caracteres"))
      ∈ (image_processing_node defaultSettings okOCREnv "08:01:00"
          (create_initial_state "./temp/upload_doc.png" "doc.png")).1.logging.messages ∧
    "image_processing_stats"
      ∈ dictKeys (image_processing_node defaultSettings okOCREnv "08:01:00"
          (create_initial_state "./temp/upload_doc.png" "doc.png")).1.logging.debug_info ∧
    (image_processing_node defaultSettings okOCREnv "08:01:00"
        (create_initial_state "./temp/upload_doc.png" "doc.png")).1.processing_data.ocr_confidence
      = (create_initial_state "./temp/upload_doc.png" "doc.png").processing_data.ocr_confidence :=
  C8_stage_a_captures_text_not_confidence defaultSettings okOCREnv "08:01:00"
    (create_initial_state "./temp/upload_doc.png" "doc.png") "DNI 12345678 PEREZ"
    rfl rfl rfl (by decide) (by decide) rfl (by decide)

-- === Job store invariant machinery (C9, C10) ===

/-- A concrete freshly created job record. -/
def pendingJobFixture : JobRecord :=
  { job_id := "j1", status := "PENDING", filename := "doc.png", file_size_mb := 0,
    created_at := "t0", file_path := "./temp/upload_doc.png" }

/-- The record invariant of the job store: terminal records carry a
completion timestamp, and FAILED records additionally carry an error. -/
def recInv (rec : JobRecord) : Prop :=
  ((rec.status = "COMPLETED" ∨ rec.status = "FAILED") → rec.completed_at.isSome = true) ∧
  (rec.status = "FAILED" → rec.error.isSome = true)

instance (rec : JobRecord) : Decidable (recInv rec) := by
  unfold recInv
  infer_instance

/-- The terminal update always satisfies the record invariant, whatever the
incoming record was. -/
theorem finalizeJob_recInv (rec : JobRecord) (outcome : BackgroundOutcome) (ts : String) :
    recInv (finalizeJob rec outcome ts) := by
  rcases outcome with r | msg
  · rcases r with _ | r
    · exact ⟨fun _ => rfl, fun _ => rfl⟩
    · by_cases hf : r.status = "FAILED"
      · simp [finalizeJob, hf, recInv]
      · simp [finalizeJob, hf, recInv]
  · exact ⟨fun _ => rfl, fun _ => rfl⟩

/-- The PROCESSING update trivially satisfies the record invariant. -/
theorem beginProcessing_recInv (rec : JobRecord) (ts : String) :
    recInv (beginProcessing rec ts) := by
  simp [beginProcessing, recInv]

/-- A freshly created PENDING record satisfies the record invariant. -/
theorem newJobRecord_recInv (job_id : String) (filename : List Char) (content : List Nat)
    (created_at file_path : String) :
    recInv (newJobRecord job_id filename content created_at file_path) := by
  simp [newJobRecord, recInv]

/-- Every store operation preserves the record invariant of all records. -/
theorem applyOp_preserves_recInv (σ : JobStore) (op : JobOp)
    (h : ∀ p ∈ σ, recInv p.2) : ∀ p ∈ applyOp σ op, recInv p.2 := by
  rcases op with ⟨sett, filename, content, job_id, created_at, file_path, saveOk⟩ | ⟨id, ts⟩ | ⟨id, outcome, ts⟩ | id
  · intro p hp
    unfold applyOp upload_document at hp
    dsimp only at hp
    rcases hv : validate_document sett filename content with e | c
    · rw [hv] at hp
      exact h p hp
    · rw [hv] at hp
      by_cases hs : saveOk
      · simp only [hs, not_true, if_neg, ite_false] at hp
        rcases List.mem_append.mp hp with hold | hnew
        · exact h p hold
        · rw [List.mem_singleton.mp hnew]
          exact newJobRecord_recInv job_id filename content created_at file_path
      · simp only [hs, not_false_iff, if_pos, ite_true] at hp
        exact h p hp
  · intro p hp
    unfold applyOp storeUpdate at hp
    rcases List.mem_map.mp hp with ⟨q, hq, hpq⟩
    by_cases hid : q.1 = id
    · rw [if_pos hid] at hpq
      rw [← hpq]
      exact beginProcessing_recInv q.2 ts
    · rw [if_neg hid] at hpq
      rw [← hpq]
      exact h q hq
  · intro p hp
    unfold applyOp storeUpdate at hp
    rcases List.mem_map.mp hp with ⟨q, hq, hpq⟩
    by_cases hid : q.1 = id
    · rw [if_pos hid] at hpq
      rw [← hpq]
      exact finalizeJob_recInv q.2 outcome ts
    · rw [if_neg hid] at hpq
      rw [← hpq]
      exact h q hq
  · intro p hp
    unfold applyOp storeDelete at hp
    exact h p (List.mem_of_mem_filter hp)

/-- The invariant propagates through any sequence of operations. -/
theorem foldl_preserves_recInv (ops : List JobOp) (σ : JobStore)
    (h : ∀ p ∈ σ, recInv p.2) : ∀ p ∈ ops.foldl applyOp σ, recInv p.2 := by
  induction ops generalizing σ with
  | nil => exact h
  | cons op rest ih =>
      exact ih (applyOp σ op) (applyOp_preserves_recInv σ op h)

/-- A record satisfying the invariant never makes the status query hit a
missing field. -/
theorem recInv_status_query (rec : JobRecord) (h : recInv rec) :
    (get_job_status rec).isSome = true := by
  by_cases hP : rec.status = "PROCESSING"
  · simp [get_job_status, hP]
  · by_cases hC : rec.status = "COMPLETED"
    · obtain ⟨c, hc⟩ := Option.isSome_iff_exists.mp (h.1 (Or.inl hC))
      simp [get_job_status, hP, hC, hc]
    · by_cases hF : rec.status = "FAILED"
      · obtain ⟨c, hc⟩ := Option.isSome_iff_exists.mp (h.1 (Or.inr hF))
        obtain ⟨e, he⟩ := Option.isSome_iff_exists.mp (h.2 hF)
        simp [get_job_status, hP, hC, hF, hc, he]
      · simp [get_job_status, hP, hC, hF]

/-- A record satisfying the invariant never makes the list query hit a
missing field. -/
theorem recInv_list_query (rec : JobRecord) (h : recInv rec) :
    (list_entry rec).isSome = true := by
  by_cases hC : rec.status = "COMPLETED"
  · obtain ⟨c, hc⟩ := Option.isSome_iff_exists.mp (h.1 (Or.inl hC))
    simp [list_entry, hC, hc]
  · by_cases hF : rec.status = "FAILED"
    · simp [list_entry, hC, hF]
    · simp [list_entry, hC, hF]

-- === Claim theorems (continued) ===

/-- C9: a background execution always leaves its job record in a terminal
status — COMPLETED or FAILED, never PROCESSING — and when the task body
raises an unexpected exception outside the two stages, the record is FAILED
with the exception text as the error and a completion timestamp. -/
theorem C9_background_raised_forces_failed (rec : JobRecord) (outcome : BackgroundOutcome)
    (started_at completed_at : String) :
    ((process_file_background rec outcome started_at completed_at).status = "COMPLETED" ∨
     (process_file_background rec outcome started_at completed_at).status = "FAILED") ∧
    (∀ msg, outcome = BackgroundOutcome.raised msg →
      (process_file_background rec outcome started_at completed_at).status = "FAILED" ∧
      (process_file_background rec outcome started_at completed_at).error = some msg ∧
      (process_file_background rec outcome started_at completed_at).completed_at
        = some completed_at) := by
  rcases outcome with r | msg
  · rcases r with _ | r
    · exact ⟨Or.inr rfl, fun m hm => BackgroundOutcome.noConfusion hm⟩
    · constructor
      · by_cases hf : r.status = "FAILED"
        · right
          simp [process_file_background, finalizeJob, beginProcessing, hf]
        · left
          simp [process_file_background, finalizeJob, beginProcessing, hf]
      · intro m hm
        exact BackgroundOutcome.noConfusion hm
  · constructor
    · exact Or.inr rfl
    · intro m hm
      injection hm with hmsg
      subst hmsg
      exact ⟨rfl, rfl, rfl⟩

/-- C9 witness at a concrete raised exception. -/
theorem C9_background_raised_forces_failed_witness :
    (process_file_background pendingJobFixture (BackgroundOutcome.raised "boom")
        "t1" "t2").status = "FAILED" ∧
    (process_file_background pendingJobFixture (BackgroundOutcome.raised "boom")
        "t1" "t2").error = some "boom" ∧
    (process_file_background pendingJobFixture (BackgroundOutcome.raised "boom")
        "t1" "t2").completed_at = some "t2" :=
  (C9_background_raised_forces_failed pendingJobFixture (BackgroundOutcome.raised "boom")
    "t1" "t2").2 "boom" rfl

/-- C10: every store reachable by the tracker operations from a store whose
records are invariant-satisfying (in particular the empty start-up store)
keeps the invariant: each COMPLETED or FAILED record carries a completion
timestamp, each FAILED record carries an error, and consequently the status
and list projections never hit a missing field for any stored record. -/
theorem C10_terminal_records_always_complete (σ0 : JobStore)
    (h0 : ∀ p ∈ σ0, recInv p.2) (ops : List JobOp) (p : String × JobRecord)
    (hp : p ∈ ops.foldl applyOp σ0) :
    recInv p.2 ∧ (get_job_status p.2).isSome = true ∧ (list_entry p.2).isSome = true := by
  have h := foldl_preserves_recInv ops σ0 h0 p hp
  exact ⟨h, recInv_status_query p.2 h, recInv_list_query p.2 h⟩

/-- C10 witness: one finalize operation on a one-record store. -/
theorem C10_terminal_records_always_complete_witness :
    recInv (finalizeJob pendingJobFixture (BackgroundOutcome.raised "boom") "t2") ∧
    (get_job_status (finalizeJob pendingJobFixture
        (BackgroundOutcome.raised "boom") "t2")).isSome = true ∧
    (list_entry (finalizeJob pendingJobFixture
        (BackgroundOutcome.raised "boom") "t2")).isSome = true :=
  C10_terminal_records_always_complete [("j1", pendingJobFixture)] (by decide)
    [JobOp.finishJob "j1" (BackgroundOutcome.raised "boom") "t2"]
    ("j1", finalizeJob pendingJobFixture (BackgroundOutcome.raised "boom") "t2")
    (List.mem_singleton.mpr rfl)

-- === Magic-byte validation lemmas (C6) ===

/-- Splitting a list that has an occurrence of the separator decomposes into
the pieces before that occurrence and the split of the rest. -/
theorem splitOnCharAux_append_cons (c : Char) (b : List Char) :
    ∀ (a acc : List Char), ∃ pre, pre ≠ [] ∧
      splitOnCharAux c (a ++ c :: b) acc = pre ++ splitOnCharAux c b [] := by
  intro a
  induction a with
  | nil =>
      intro acc
      exact ⟨[acc.reverse], by simp, by simp [splitOnCharAux]⟩
  | cons x xs ih =>
      intro acc
      by_cases hx : x = c
      · obtain ⟨pre, hne, hp⟩ := ih []
        exact ⟨acc.reverse :: pre, by simp, by simp [splitOnCharAux, hx, hp]⟩
      · obtain ⟨pre, hne, hp⟩ := ih (x :: acc)
        exact ⟨pre, hne, by simp [splitOnCharAux, hx, hp]⟩

/-- Splitting a separator-free list yields a single piece. -/
theorem splitOnCharAux_no_sep (c : Char) (b : List Char) (hb : ∀ x ∈ b, ¬ x = c) :
    ∀ acc, splitOnCharAux c b acc = [acc.reverse ++ b] := by
  induction b with
  | nil => intro acc; simp [splitOnCharAux]
  | cons x xs ih =>
      intro acc
      have hx : ¬ x = c := hb x (List.mem_cons_self x xs)
      have ih2 := ih (fun y hy => hb y (List.mem_cons_of_mem x hy)) (x :: acc)
      simp only [List.cons_append, splitOnCharAux, if_neg hx, ih2, List.reverse_cons]
      simp

/-- The final dot-component of `a ++ "." ++ b` is `b` when `b` is dot-free:
this is Python `filename.split(".")[-1]`. -/
theorem lastDotComponent (a b : List Char) (hb : ∀ x ∈ b, ¬ x = '.') :
    (splitOnChar '.' (a ++ '.' :: b)).getLastD [] = b := by
  obtain ⟨pre, hne, hp⟩ := splitOnCharAux_append_cons '.' b a []
  unfold splitOnChar
  rw [hp, splitOnCharAux_no_sep '.' b hb []]
  simp [List.getLastD_concat]

/-- Evaluation of `_is_valid_image_content` on a filename of the shape
`stem ++ "." ++ extname` with a dot-free, lowercase extension present in the
magic-byte table. -/
theorem is_valid_image_content_eval (stem2 extname : List Char) (content : List Nat)
    (sigs : List (List Nat))
    (hnodot : ∀ x ∈ extname, ¬ x = '.')
    (hlower : extname.map Char.toLower = extname)
    (hfind : magic_bytes.find? (fun p => p.1 == extname) = some (extname, sigs))
    (hcontent : ¬ content = []) :
    is_valid_image_content content (stem2 ++ '.' :: extname)
      = sigs.any (fun magic => magic.isPrefixOf content) := by
  unfold is_valid_image_content
  rw [if_neg hcontent]
  have hcontains : (stem2 ++ '.' :: extname).contains '.' = true := by
    rw [List.contains]
    exact List.elem_iff.mpr (List.mem_append_right stem2 (List.mem_cons_self _ _))
  rw [if_pos hcontains, lastDotComponent stem2 extname hnodot, hlower]
  dsimp only
  rw [hfind]

/-- The `validate_document` accepts a supported-extension filename whose payload
matches one of the extension's magic signatures and fits the size ceiling. -/
theorem validate_document_accepts (sett : Settings) (stem extname : List Char)
    (content : List Nat) (sigs : List (List Nat))
    (hext_mem : ('.' :: extname) ∈ image_extensions)
    (hnodot : ∀ x ∈ extname, ¬ x = '.')
    (hlower : extname.map Char.toLower = extname)
    (hfind : magic_bytes.find? (fun p => p.1 == extname) = some (extname, sigs))
    (hsize : content.length ≤ sett.max_image_size_mb * (1024 * 1024))
    (hmagic : ∃ m ∈ sigs, m.isPrefixOf content = true)
    (hne : ∀ m ∈ sigs, ¬ m = []) :
    validate_document sett (stem ++ '.' :: extname) content = Except.ok content := by
  obtain ⟨m, hm, hmp⟩ := hmagic
  have hcontent : ¬ content = [] := by
    intro hc
    subst hc
    have : m = [] := by
      cases m with
      | nil => rfl
      | cons y ys => simp [List.isPrefixOf] at hmp
    exact hne m hm this
  unfold validate_document
  rw [if_neg (by simp : ¬ (stem ++ '.' :: extname = []))]
  have hlow : (stem ++ '.' :: extname).map Char.toLower
      = stem.map Char.toLower ++ '.' :: extname := by
    rw [List.map_append, List.map_cons, hlower]
    rfl
  rw [hlow]
  have hsuffix : image_extensions.any
      (fun ext => ext.isSuffixOf (stem.map Char.toLower ++ '.' :: extname)) = true :=
    List.any_eq_true.mpr ⟨'.' :: extname, hext_mem, isSuffixOf_append_self _ _⟩
  rw [if_neg (fun hc => hc hsuffix)]
  have hsz : ¬(((content.length : Nat) : Rat) / (1024 * 1024) > (sett.max_image_size_mb : Rat)) := by
    rw [size_gt_iff]
    exact Nat.not_lt.mpr hsize
  rw [if_neg hsz]
  have hvalid : is_valid_image_content content (stem.map Char.toLower ++ '.' :: extname) = true := by
    rw [is_valid_image_content_eval (stem.map Char.toLower) extname content sigs
      hnodot hlower hfind hcontent]
    exact List.any_eq_true.mpr ⟨m, hm, hmp⟩
  rw [if_neg (fun hc => hc hvalid)]

/-- The `validate_document` rejects (with the magic-byte failure) a
supported-extension filename whose payload matches none of the extension's
magic signatures, size ceiling notwithstanding. -/
theorem validate_document_rejects (sett : Settings) (stem extname : List Char)
    (content : List Nat) (sigs : List (List Nat))
    (hext_mem : ('.' :: extname) ∈ image_extensions)
    (hnodot : ∀ x ∈ extname, ¬ x = '.')
    (hlower : extname.map Char.toLower = extname)
    (hfind : magic_bytes.find? (fun p => p.1 == extname) = some (extname, sigs))
    (hsize : content.length ≤ sett.max_image_size_mb * (1024 * 1024))
    (hmagic : ∀ m ∈ sigs, ¬ m.isPrefixOf content = true) :
    validate_document sett (stem ++ '.' :: extname) content
      = Except.error ValError.badContent := by
  unfold validate_document
  rw [if_neg (by simp : ¬ (stem ++ '.' :: extname = []))]
  have hlow : (stem ++ '.' :: extname).map Char.toLower
      = stem.map Char.toLower ++ '.' :: extname := by
    rw [List.map_append, List.map_cons, hlower]
    rfl
  rw [hlow]
  have hsuffix : image_extensions.any
      (fun ext => ext.isSuffixOf (stem.map Char.toLower ++ '.' :: extname)) = true :=
    List.any_eq_true.mpr ⟨'.' :: extname, hext_mem, isSuffixOf_append_self _ _⟩
  rw [if_neg (fun hc => hc hsuffix)]
  have hsz : ¬(((content.length : Nat) : Rat) / (1024 * 1024) > (sett.max_image_size_mb : Rat)) := by
    rw [size_gt_iff]
    exact Nat.not_lt.mpr hsize
  rw [if_neg hsz]
  have hvalid : is_valid_image_content content (stem.map Char.toLower ++ '.' :: extname) = false := by
    by_cases hcontent : content = []
    · subst hcontent
      unfold is_valid_image_content
      rw [if_pos rfl]
    · rw [is_valid_image_content_eval (stem.map Char.toLower) extname content sigs
        hnodot hlower hfind hcontent]
      exact List.any_eq_false.mpr hmagic
  rw [if_pos (by rw [hvalid]; exact Bool.false_ne_true)]

/-- A validation failure aborts the upload before any job is created: the
store is unchanged. -/
theorem upload_rejected_no_job (sett : Settings) (σ : JobStore) (filename : List Char)
    (content : List Nat) (job_id created_at file_path : String) (saveOk : Bool)
    (e : ValError)
    (hv : validate_document sett filename content = Except.error e) :
    (upload_document sett σ filename content job_id created_at file_path saveOk).1 = σ := by
  unfold upload_document
  rw [hv]

/-- The magic-byte signature set of a (dotted) supported extension, read from
the `magic_bytes` table. -/
def magicSignaturesFor (ext : List Char) : List (List Nat) :=
  ((magic_bytes.find? (fun p => p.1 == ext.drop 1)).map Prod.snd).getD []

/-- C6: for every supported extension and size-admissible payload, a payload
whose leading bytes match one of that extension's magic signatures passes
`validate_document`, and a payload matching none of them is rejected with the
magic-byte validation failure before any job is created (the store is left
unchanged). -/
theorem C6_magic_byte_validation (sett : Settings) (σ : JobStore) (ext stem : List Char)
    (content : List Nat) (job_id created_at file_path : String) (saveOk : Bool)
    (hext : ext ∈ image_extensions)
    (hsize : content.length ≤ sett.max_image_size_mb * (1024 * 1024)) :
    ((∃ m ∈ magicSignaturesFor ext, m.isPrefixOf content = true) →
      validate_document sett (stem ++ ext) content = Except.ok content) ∧
    ((∀ m ∈ magicSignaturesFor ext, ¬ m.isPrefixOf content = true) →
      validate_document sett (stem ++ ext) content = Except.error ValError.badContent ∧
      (upload_document sett σ (stem ++ ext) content job_id created_at file_path saveOk).1
        = σ) := by
  simp only [image_extensions, List.mem_cons, List.not_mem_nil, or_false] at hext
  rcases hext with h | h | h | h | h | h
  all_goals subst h
  · constructor
    · intro hm
      exact validate_document_accepts sett stem "jpg".toList content [[0xff, 0xd8, 0xff]]
        (by decide) (by decide) (by decide) (by decide) hsize hm (by decide)
    · intro hm
      have hv := validate_document_rejects sett stem "jpg".toList content [[0xff, 0xd8, 0xff]]
        (by decide) (by decide) (by decide) (by decide) hsize hm
      exact ⟨hv, upload_rejected_no_job sett σ _ content job_id created_at file_path saveOk
        ValError.badContent hv⟩
  · constructor
    · intro hm
      exact validate_document_accepts sett stem "jpeg".toList content [[0xff, 0xd8, 0xff]]
        (by decide) (by decide) (by decide) (by decide) hsize hm (by decide)
    · intro hm
      have hv := validate_document_rejects sett stem "jpeg".toList content [[0xff, 0xd8, 0xff]]
        (by decide) (by decide) (by decide) (by decide) hsize hm
      exact ⟨hv, upload_rejected_no_job sett σ _ content job_id created_at file_path saveOk
        ValError.badContent hv⟩
  · constructor
    · intro hm
      exact validate_document_accepts sett stem "png".toList content
        [[0x89, 0x50, 0x4e, 0x47]]
        (by decide) (by decide) (by decide) (by decide) hsize hm (by decide)
    · intro hm
      have hv := validate_document_rejects sett stem "png".toList content
        [[0x89, 0x50, 0x4e, 0x47]]
        (by decide) (by decide) (by decide) (by decide) hsize hm
      exact ⟨hv, upload_rejected_no_job sett σ _ content job_id created_at file_path saveOk
        ValError.badContent hv⟩
  · constructor
    · intro hm
      exact validate_document_accepts sett stem "tiff".toList content
        [[0x49, 0x49, 0x2a, 0x00], [0x4d, 0x4d, 0x00, 0x2a]]
        (by decide) (by decide) (by decide) (by decide) hsize hm (by decide)
    · intro hm
      have hv := validate_document_rejects sett stem "tiff".toList content
        [[0x49, 0x49, 0x2a, 0x00], [0x4d, 0x4d, 0x00, 0x2a]]
        (by decide) (by decide) (by decide) (by decide) hsize hm
      exact ⟨hv, upload_rejected_no_job sett σ _ content job_id created_at file_path saveOk
        ValError.badContent hv⟩
  · constructor
    · intro hm
      exact validate_document_accepts sett stem "tif".toList content
        [[0x49, 0x49, 0x2a, 0x00], [0x4d, 0x4d, 0x00, 0x2a]]
        (by decide) (by decide) (by decide) (by decide) hsize hm (by decide)
    · intro hm
      have hv := validate_document_rejects sett stem "tif".toList content
        [[0x49, 0x49, 0x2a, 0x00], [0x4d, 0x4d, 0x00, 0x2a]]
        (by decide) (by decide) (by decide) (by decide) hsize hm
      exact ⟨hv, upload_rejected_no_job sett σ _ content job_id created_at file_path saveOk
        ValError.badContent hv⟩
  · constructor
    · intro hm
      exact validate_document_accepts sett stem "bmp".toList content [[0x42, 0x4d]]
        (by decide) (by decide) (by decide) (by decide) hsize hm (by decide)
    · intro hm
      have hv := validate_document_rejects sett stem "bmp".toList content [[0x42, 0x4d]]
        (by decide) (by decide) (by decide) (by decide) hsize hm
      exact ⟨hv, upload_rejected_no_job sett σ _ content job_id created_at file_path saveOk
        ValError.badContent hv⟩

/-- C6 witness: a PNG-signature payload under a `.png` name is accepted; a
JPEG-signature payload under the same `.png` name is rejected with no job
created. -/
theorem C6_magic_byte_validation_witness :
    validate_document defaultSettings ("doc".toList ++ ".png".toList)
        [0x89, 0x50, 0x4e, 0x47, 0, 1] = Except.ok [0x89, 0x50, 0x4e, 0x47, 0, 1] ∧
    (validate_document defaultSettings ("doc".toList ++ ".png".toList)
        [0xff, 0xd8, 0xff, 0] = Except.error ValError.badContent ∧
     (upload_document defaultSettings [] ("doc".toList ++ ".png".toList)
        [0xff, 0xd8, 0xff, 0] "j1" "t0" "./temp/doc.png" true).1 = []) :=
  ⟨(C6_magic_byte_validation defaultSettings [] ".png".toList "doc".toList
      [0x89, 0x50, 0x4e, 0x47, 0, 1] "j1" "t0" "./temp/doc.png" true
      (by decide) (by decide)).1 (by decide),
   (C6_magic_byte_validation defaultSettings [] ".png".toList "doc".toList
      [0xff, 0xd8, 0xff, 0] "j1" "t0" "./temp/doc.png" true
      (by decide) (by decide)).2 (by decide)⟩

-- === Completed-job result lemmas (C1) ===

/-- The `finalizeJob` on a non-FAILED pipeline result stores the enhanced result
and marks the record COMPLETED. -/
theorem finalizeJob_completed (rec : JobRecord) (r : PipelineResult) (ts : String)
    (h : ¬ r.status = "FAILED") :
    finalizeJob rec (BackgroundOutcome.ok (some r)) ts
      = { rec with status := "COMPLETED", completed_at := some ts,
                   result := some (enhanced_result r) } := by
  unfold finalizeJob
  dsimp only
  rw [if_neg h]

/-- The `mkPipelineResult` on a non-FAILED final state takes the success shape. -/
theorem mkPipelineResult_not_failed (s : PipelineState)
    (h : ¬ s.processing_control.status = "FAILED") :
    mkPipelineResult s
      = { status := s.processing_control.status,
          processing_stage := s.processing_control.processing_stage,
          error_details := none,
          extracted_data := some s.extracted_data,
          metrics := s.metrics } := by
  unfold mkPipelineResult
  rw [if_neg h]

/-- A Stage B environment whose completion call returns a JSON object with a
key outside the recognized field set, with a `json.loads`-consistent parser. -/
def fooLLMEnv : LLMEnv :=
  { clientInit := Except.ok (),
    callResult := Except.ok { content := "\x7b\"foo\": \"bar\"\x7d".toList, tokens_used := 10 },
    parse := fun s =>
      if s = "\x7b\"foo\": \"bar\"\x7d".toList then Except.ok (Json.obj [("foo", Json.str "bar")])
      else Except.error "Expecting value: line 1 column 1 (char 0)" }

/-- Any fully successful execution produces a COMPLETED job record whose
stored `extracted_data` keys are exactly the parsed LLM mapping keys together
with `texto_extraido`. -/
theorem completed_job_keys_spec (sett : Settings) (oenv : OCREnv) (lenv : LLMEnv)
    (rec : JobRecord) (ts1 ts2 tsb tsc fp fn : String) (t2 : String)
    (resp : LLMResponse) (fields : List (String × Json))
    (h1 : oenv.vision.1 = true) (h2 : oenv.image_deps = Except.ok ())
    (h3 : oenv.file_exists = true) (h4 : is_image_file fp = true)
    (h5 : oenv.file_size_bytes ≤ sett.max_image_size_mb * (1024 * 1024))
    (h6 : oenv.ocrResult = Except.ok t2) (h7 : ¬ pyStripStr t2 = "")
    (h8 : lenv.clientInit = Except.ok ())
    (h9 : lenv.callResult = Except.ok resp)
    (h10 : lenv.parse (cleanLLMContent resp.content) = Except.ok (Json.obj fields)) :
    (process_file_background rec
        (BackgroundOutcome.ok (some (pipelineProcess sett oenv lenv ts1 ts2 fp fn).1))
        tsb tsc).status = "COMPLETED" ∧
    ∃ er, (process_file_background rec
        (BackgroundOutcome.ok (some (pipelineProcess sett oenv lenv ts1 ts2 fp fn).1))
        tsb tsc).result = some er ∧
      ∀ k, (k ∈ dictKeys er.extracted_data ↔ (k ∈ dictKeys fields ∨ k = "texto_extraido")) := by
  have hA := image_node_success_spec sett oenv ts1 (create_initial_state fp fn) t2
    h1 h2 h3 h4 h5 h6 h7
  have h0 : ¬ (image_processing_node sett oenv ts1
      (create_initial_state fp fn)).1.processing_control.status = "FAILED" := by
    rw [hA.1]
    exact (by decide : ¬ ("PROCESSING" : String) = "FAILED")
  have hB := llm_node_success_spec sett lenv ts2
    (image_processing_node sett oenv ts1 (create_initial_state fp fn)).1
    (pyStripStr t2) resp fields h0 h8 hA.2.1 h7 h9 h10
  have hs2 : ¬ (llm_node sett lenv ts2 (image_processing_node sett oenv ts1
      (create_initial_state fp fn)).1).1.processing_control.status = "FAILED" := by
    rw [hB.1]
    exact (by decide : ¬ ("COMPLETED" : String) = "FAILED")
  have hr : (pipelineProcess sett oenv lenv ts1 ts2 fp fn).1
      = mkPipelineResult (llm_node sett lenv ts2 (image_processing_node sett oenv ts1
          (create_initial_state fp fn)).1).1 := rfl
  have hrs : (pipelineProcess sett oenv lenv ts1 ts2 fp fn).1.status = "COMPLETED" := by
    rw [hr, mkPipelineResult_not_failed _ hs2]
    exact hB.1
  have hrd : (pipelineProcess sett oenv lenv ts1 ts2 fp fn).1.extracted_data
      = some fields := by
    rw [hr, mkPipelineResult_not_failed _ hs2]
    dsimp only
    rw [hB.2.1]
  have hnf : ¬ (pipelineProcess sett oenv lenv ts1 ts2 fp fn).1.status = "FAILED" := by
    rw [hrs]
    exact (by decide : ¬ ("COMPLETED" : String) = "FAILED")
  have hfin := finalizeJob_completed (beginProcessing rec tsb)
    (pipelineProcess sett oenv lenv ts1 ts2 fp fn).1 tsc hnf
  constructor
  · show (finalizeJob (beginProcessing rec tsb)
        (BackgroundOutcome.ok (some (pipelineProcess sett oenv lenv ts1 ts2 fp fn).1))
        tsc).status = "COMPLETED"
    rw [hfin]
  · refine ⟨enhanced_result (pipelineProcess sett oenv lenv ts1 ts2 fp fn).1, ?_, ?_⟩
    · show (finalizeJob (beginProcessing rec tsb)
          (BackgroundOutcome.ok (some (pipelineProcess sett oenv lenv ts1 ts2 fp fn).1))
          tsc).result
        = some (enhanced_result (pipelineProcess sett oenv lenv ts1 ts2 fp fn).1)
      rw [hfin]
    · intro k
      unfold enhanced_result
      dsimp only
      rw [hrd, Option.getD_some]
      exact mem_dictKeys_dictSet fields "texto_extraido" k (Json.str "")

/-- C1 counterexample: a job that reaches COMPLETED whose stored
`extracted_data` carries the key `foo` (returned by the LLM and merged with
no filtering) and the key `texto_extraido` (always injected by the job
tracker) — neither of which belongs to the seven-field recognized set of the
extraction prompt. -/
theorem C1_stored_keys_escape_recognized_set_counterexample :
    (process_file_background pendingJobFixture
        (BackgroundOutcome.ok (some (pipelineProcess defaultSettings okOCREnv fooLLMEnv
          "t1" "t2" "./temp/upload_doc.png" "doc.png").1)) "tb" "tc").status
      = "COMPLETED" ∧
    (∃ er, (process_file_background pendingJobFixture
        (BackgroundOutcome.ok (some (pipelineProcess defaultSettings okOCREnv fooLLMEnv
          "t1" "t2" "./temp/upload_doc.png" "doc.png").1)) "tb" "tc").result = some er ∧
      "foo" ∈ dictKeys er.extracted_data ∧
      "texto_extraido" ∈ dictKeys er.extracted_data) ∧
    ¬ ("foo" ∈ recognizedFields) ∧
    ¬ ("texto_extraido" ∈ recognizedFields) := by
  obtain ⟨hstatus, er, hres, hkeys⟩ := completed_job_keys_spec defaultSettings okOCREnv
    fooLLMEnv pendingJobFixture "t1" "t2" "tb" "tc" "./temp/upload_doc.png" "doc.png"
    "DNI 12345678 PEREZ"
    { content := "\x7b\"foo\": \"bar\"\x7d".toList, tokens_used := 10 }
    [("foo", Json.str "bar")]
    rfl rfl rfl (by decide) (by decide) rfl (by decide) rfl rfl rfl
  refine ⟨hstatus, ⟨er, hres, ?_, ?_⟩, by decide, by decide⟩
  · exact (hkeys "foo").mpr (Or.inl (by decide))
  · exact (hkeys "texto_extraido").mpr (Or.inr rfl)

/-- C1 (amended): for every job that reaches COMPLETED through a successful
pipeline run, the keys of the stored `extracted_data` are exactly the keys of
the LLM's parsed JSON mapping together with the injected `texto_extraido`
key; the code applies no restriction to the recognized seven-field set, which
is enforced only by prompt instructions to the LLM. -/
theorem C1_stored_keys_are_llm_keys_plus_texto_extraido (sett : Settings) (oenv : OCREnv)
    (lenv : LLMEnv) (rec : JobRecord) (ts1 ts2 tsb tsc fp fn : String) (t2 : String)
    (resp : LLMResponse) (fields : List (String × Json))
    (h1 : oenv.vision.1 = true) (h2 : oenv.image_deps = Except.ok ())
    (h3 : oenv.file_exists = true) (h4 : is_image_file fp = true)
    (h5 : oenv.file_size_bytes ≤ sett.max_image_size_mb * (1024 * 1024))
    (h6 : oenv.ocrResult = Except.ok t2) (h7 : ¬ pyStripStr t2 = "")
    (h8 : lenv.clientInit = Except.ok ())
    (h9 : lenv.callResult = Except.ok resp)
    (h10 : lenv.parse (cleanLLMContent resp.content) = Except.ok (Json.obj fields)) :
    (process_file_background rec
        (BackgroundOutcome.ok (some (pipelineProcess sett oenv lenv ts1 ts2 fp fn).1))
        tsb tsc).status = "COMPLETED" ∧
    ∃ er, (process_file_background rec
        (BackgroundOutcome.ok (some (pipelineProcess sett oenv lenv ts1 ts2 fp fn).1))
        tsb tsc).result = some er ∧
      ∀ k, (k ∈ dictKeys er.extracted_data ↔ (k ∈ dictKeys fields ∨ k = "texto_extraido")) :=
  completed_job_keys_spec sett oenv lenv rec ts1 ts2 tsb tsc fp fn t2 resp fields
    h1 h2 h3 h4 h5 h6 h7 h8 h9 h10

/-- C1 witness at a concrete successful run whose LLM answer uses only a
recognized field. -/
theorem C1_stored_keys_are_llm_keys_plus_texto_extraido_witness :
    (process_file_background pendingJobFixture
        (BackgroundOutcome.ok (some (pipelineProcess defaultSettings okOCREnv okLLMEnv
          "t1" "t2" "./temp/upload_doc.png" "doc.png").1)) "tb" "tc").status
      = "COMPLETED" ∧
    ∃ er, (process_file_background pendingJobFixture
        (BackgroundOutcome.ok (some (pipelineProcess defaultSettings okOCREnv okLLMEnv
          "t1" "t2" "./temp/upload_doc.png" "doc.png").1)) "tb" "tc").result = some er ∧
      ∀ k, (k ∈ dictKeys er.extracted_data
        ↔ (k ∈ dictKeys [("numero_documento", Json.str "12345678")]
            ∨ k = "texto_extraido")) :=
  C1_stored_keys_are_llm_keys_plus_texto_extraido defaultSettings okOCREnv okLLMEnv
    pendingJobFixture "t1" "t2" "tb" "tc" "./temp/upload_doc.png" "doc.png"
    "DNI 12345678 PEREZ"
    { content := "\x7b\"numero_documento\": \"12345678\"\x7d".toList, tokens_used := 1000 }
    [("numero_documento", Json.str "12345678")]
    rfl rfl rfl (by decide) (by decide) rfl (by decide) rfl rfl rfl

end SmartID
